import Mathlib

/-!
# ESP32-S3 camera: key automaton, preview parameters, frame hand-off, photo save

Shallow embedding of `keyTask.cpp`, `cameraTask.cpp`, `displayTask.cpp` and
`tfCard.cpp`, followed by the properties proved about it.

Conventions
* `unsigned long` is 32 bits wide on the ESP32: times are `Nat`, and a
  difference of two times is taken modulo `2^32` (`usub`).
* `int` globals are `Int`; the increments modelled here stay far from the
  ends of the 32-bit range.
* Calls into the drivers (camera, FreeRTOS, SD) are either answered by an
  explicit environment argument or modelled by a small definition whose doc
  comment says so.
-/

namespace Cam

/-! ## keyTask.cpp -/

/-- Source: `#define DOUBLE_CLICK_MS 400`. -/
def DOUBLE_CLICK_MS : Nat := 400

/-- Source: `#define LONG_PRESS_MS 800`. -/
def LONG_PRESS_MS : Nat := 800

/-- Number of values of an `unsigned long` (32 bits on the ESP32). -/
def ULONG_RANGE : Nat := 2 ^ 32

/-- Unsigned 32-bit subtraction `a - b`, as C computes it on `unsigned long`. -/
def usub (a b : Nat) : Nat := (a % ULONG_RANGE + ULONG_RANGE - b % ULONG_RANGE) % ULONG_RANGE

/-- The `enum KeyState`. -/
inductive KeyState where
  | KEY_IDLE
  | KEY_PRESSED
  | KEY_WAIT_SECOND
  | KEY_LONG_PRESSED
  deriving DecidableEq, Repr

/-- The `struct KeyInfo`. -/
structure KeyInfo where
  pin : Int
  state : KeyState
  pressStart : Nat
  lastPress : Nat
  flag : Bool
  skipSingle : Bool
  deriving DecidableEq, Repr

/-- The three callbacks `handleKey` can invoke. -/
inductive KeyEvent where
  | singleClick
  | doubleClick
  | longPress
  deriving DecidableEq, Repr

/-- Source: `#define KEY_CAM_PIN 10`. -/
def KEY_CAM_PIN : Int := 10

/-- An entry of `keyArray` as initialised in the source:
`{pin, KEY_IDLE, 0, 0, false, true}`. -/
def keyArrayInit (pin : Int) : KeyInfo :=
  { pin := pin, state := .KEY_IDLE, pressStart := 0, lastPress := 0, flag := false,
    skipSingle := true }

/-- First block of `handleKey` (lines 88-100): the ISR flag is consumed. -/
def handleKey_flag (key : KeyInfo) (now : Nat) : KeyInfo × List KeyEvent :=
  if key.flag then
    let key := { key with flag := false }
    if key.state = .KEY_IDLE then
      ({ key with pressStart := now, state := .KEY_PRESSED, skipSingle := false }, [])
    else if key.state = .KEY_WAIT_SECOND ∧ usub now key.lastPress < DOUBLE_CLICK_MS then
      ({ key with state := .KEY_IDLE, skipSingle := true }, [.doubleClick])
    else (key, [])
  else (key, [])

/-- Second block of `handleKey` (lines 101-106): long-press detection. -/
def handleKey_long (key : KeyInfo) (now : Nat) : KeyInfo × List KeyEvent :=
  if key.state = .KEY_PRESSED ∧ usub now key.pressStart > LONG_PRESS_MS then
    ({ key with state := .KEY_LONG_PRESSED, skipSingle := true }, [.longPress])
  else (key, [])

/-- Third block of `handleKey` (lines 107-114): release detection;
`pinHigh` is `digitalRead(key.pin) == HIGH`. -/
def handleKey_release (key : KeyInfo) (now : Nat) (pinHigh : Bool) : KeyInfo :=
  if (key.state = .KEY_PRESSED ∨ key.state = .KEY_LONG_PRESSED) ∧ pinHigh = true then
    if key.state = .KEY_PRESSED then
      { key with lastPress := now, state := .KEY_WAIT_SECOND }
    else
      { key with state := .KEY_IDLE }
  else key

/-- Fourth block of `handleKey` (lines 115-121): the double-click window
runs out. -/
def handleKey_timeout (key : KeyInfo) (now : Nat) : KeyInfo × List KeyEvent :=
  if key.state = .KEY_WAIT_SECOND ∧ usub now key.lastPress > DOUBLE_CLICK_MS then
    ({ key with state := .KEY_IDLE },
      if key.skipSingle = false then [.singleClick] else [])
  else (key, [])

/-- One evaluation of `handleKey` with `now = millis()` and the sampled pin
level; the result is the new key record and the callbacks invoked, in order.
The three callbacks are non-null, as at every call site in `KeyTask`. -/
def handleKey (key : KeyInfo) (now : Nat) (pinHigh : Bool) : KeyInfo × List KeyEvent :=
  let r1 := handleKey_flag key now
  let r2 := handleKey_long r1.1 now
  let k3 := handleKey_release r2.1 now pinHigh
  let r4 := handleKey_timeout k3 now
  (r4.1, r1.2 ++ r2.2 ++ r4.2)

/-- What one polling tick of `KeyTask` sees for one key: whether the ISR has
fired since the previous evaluation, the value of `millis()`, and the pin. -/
structure Tick where
  isr : Bool
  now : Nat
  pinHigh : Bool
  deriving DecidableEq, Repr

/-- One polling tick: the ISR (if it fired) sets `flag`, then `handleKey` runs. -/
def tick (key : KeyInfo) (t : Tick) : KeyInfo × List KeyEvent :=
  handleKey { key with flag := key.flag || t.isr } t.now t.pinHigh

/-- A run of ticks: final key record and the events fired at each tick. -/
def runKey : KeyInfo → List Tick → KeyInfo × List (List KeyEvent)
  | key, [] => (key, [])
  | key, t :: ts => ((runKey (tick key t).1 ts).1, (tick key t).2 :: (runKey (tick key t).1 ts).2)

/-- Key states after each tick of a run (one entry per tick). -/
def runStates : KeyInfo → List Tick → List KeyState
  | _, [] => []
  | key, t :: ts => (tick key t).1.state :: runStates (tick key t).1 ts

/-- Total number of times event `e` fired in a per-tick event log. -/
def countEvent (e : KeyEvent) (log : List (List KeyEvent)) : Nat :=
  (log.map (List.count e)).sum

/-! ## cameraTask.cpp: configuration profiles and sensor parameters -/

/-- The values of `pixformat_t` the source uses. -/
inductive PixFormat where
  | PIXFORMAT_RGB565
  | PIXFORMAT_JPEG
  deriving DecidableEq, Repr

/-- The values of `framesize_t` the source uses. -/
inductive FrameSize where
  | FRAMESIZE_QVGA
  | FRAMESIZE_SXGA
  | FRAMESIZE_UXGA
  | FRAMESIZE_QSXGA
  deriving DecidableEq, Repr

/-- The value of `camera_fb_location_t` the source uses, and the other one. -/
inductive FbLocation where
  | CAMERA_FB_IN_PSRAM
  | CAMERA_FB_IN_DRAM
  deriving DecidableEq, Repr

/-- The camera model chosen in `config.h`. -/
inductive CameraModel where
  | OV2640
  | OV5640
  | other
  deriving DecidableEq, Repr

/-- Source: `config.h` has `#define OV2640` (the OV5640 line is commented out). -/
def CONFIG_MODEL : CameraModel := .OV2640

/-- The fields of `camera_config_t` that the source assigns. -/
structure CameraConfig where
  ledc_channel : Nat
  ledc_timer : Nat
  pin_d0 : Int
  pin_d1 : Int
  pin_d2 : Int
  pin_d3 : Int
  pin_d4 : Int
  pin_d5 : Int
  pin_d6 : Int
  pin_d7 : Int
  pin_xclk : Int
  pin_pclk : Int
  pin_vsync : Int
  pin_href : Int
  pin_sccb_sda : Int
  pin_sccb_scl : Int
  pin_pwdn : Int
  pin_reset : Int
  xclk_freq_hz : Int
  pixel_format : PixFormat
  frame_size : FrameSize
  jpeg_quality : Int
  fb_count : Nat
  fb_location : FbLocation
  deriving DecidableEq

/-- A `camera_fb_t` as far as the source reads it: buffer, byte length and
dimensions. -/
structure Frame where
  buf : List Nat
  len : Nat
  width : Nat
  height : Nat
  deriving DecidableEq, Repr

/-- The sensor parameters written through the `sensor_t` setters. -/
structure SensorRegs where
  contrast : Int
  brightness : Int
  saturation : Int
  vflip : Int
  special_effect : Int
  deriving DecidableEq, Repr

/-- The SD card as far as `tfCard.cpp` looks at it: the file `/photo_n.jpg`
is the pair of `n` and its contents. -/
structure SdCard where
  photos : List (Nat × List Nat)
  deriving DecidableEq, Repr

/-- Observable driver and UI actions, in the order the code performs them. -/
inductive Action where
  | popup (visible : Bool)
  | vTaskDelete (task : Nat)
  | esp_camera_deinit
  | esp_camera_init (cfg : CameraConfig) (ok : Bool)
  | set_contrast (v : Int)
  | set_brightness (v : Int)
  | set_saturation (v : Int)
  | set_vflip (v : Int)
  | set_special_effect (v : Int)
  | esp_camera_fb_get (fb : Option Frame)
  | TfCard_WritePhoto (data : List Nat) (size : Nat)
  | fileWrite (index : Nat) (bytes : List Nat)
  | esp_camera_fb_return (fb : Frame)
  | ledWrite (high : Bool)
  | xTaskCreate (task : Nat)
  deriving DecidableEq

/-- The globals of the program that the modelled functions read or write,
together with the state of the drivers behind them. -/
structure Sys where
  /-- global `int cameraEffectMode` -/
  cameraEffectMode : Int
  /-- global `int cameraParamLevel` -/
  cameraParamLevel : Int
  /-- global `camera_config_t cameraConfig` -/
  cameraConfig : CameraConfig
  /-- the registers behind `sensor_t *cameraSensor` -/
  sensor : SensorRegs
  /-- camera driver: the configuration it is initialised with, if any -/
  driver : Option CameraConfig
  keyMidState : Int
  keyTopState : Int
  keyDownState : Int
  /-- level of `LED_FLASH_PIN`; `true` is `HIGH` (LED off, active low) -/
  ledHigh : Bool
  isSavingPopupVisible : Bool
  /-- global `TaskHandle_t cameraTaskHandle`; `none` is `NULL` -/
  cameraTaskHandle : Option Nat
  /-- scheduler: the `CameraTask` instances that exist -/
  cameraTasks : List Nat
  /-- scheduler: the identifier the next created task receives -/
  nextTask : Nat
  sd : SdCard
  trace : List Action
  /-- set once `cameraSensor->...` has been evaluated with `cameraSensor == NULL`;
  the program does not run past that point -/
  sensorFault : Bool
  deriving DecidableEq

/-- Append one action to the trace. -/
def Sys.log (s : Sys) (a : Action) : Sys := { s with trace := s.trace ++ [a] }

/-- Function `CameraTask_InitPreviewConfig` (cameraTask.cpp 32-57). -/
def CameraTask_InitPreviewConfig (s : Sys) : Sys :=
  { s with cameraConfig :=
    { s.cameraConfig with
      ledc_channel := 0, ledc_timer := 0,
      pin_d0 := 16, pin_d1 := 38, pin_d2 := 15, pin_d3 := 39,
      pin_d4 := 41, pin_d5 := 40, pin_d6 := 42, pin_d7 := 21,
      pin_xclk := -1, pin_pclk := 45, pin_vsync := 48, pin_href := 47,
      pin_sccb_sda := 17, pin_sccb_scl := 18, pin_pwdn := 46, pin_reset := -1,
      xclk_freq_hz := 20000000,
      pixel_format := .PIXFORMAT_RGB565,
      frame_size := .FRAMESIZE_QVGA,
      jpeg_quality := 20,
      fb_count := 2,
      fb_location := .CAMERA_FB_IN_PSRAM } }

/-- Function `CameraTask_InitPhotoConfig` (cameraTask.cpp 63-94); the frame size is
chosen by the camera model of `config.h`. -/
def CameraTask_InitPhotoConfig (s : Sys) : Sys :=
  { s with cameraConfig :=
    { s.cameraConfig with
      ledc_channel := 0, ledc_timer := 0,
      pin_d0 := 16, pin_d1 := 38, pin_d2 := 15, pin_d3 := 39,
      pin_d4 := 41, pin_d5 := 40, pin_d6 := 42, pin_d7 := 21,
      pin_xclk := -1, pin_pclk := 45, pin_vsync := 48, pin_href := 47,
      pin_sccb_sda := 17, pin_sccb_scl := 18, pin_pwdn := 46, pin_reset := -1,
      xclk_freq_hz := 20000000,
      pixel_format := .PIXFORMAT_JPEG,
      frame_size :=
        match CONFIG_MODEL with
        | .OV2640 => .FRAMESIZE_SXGA
        | .OV5640 => .FRAMESIZE_QSXGA
        | .other => .FRAMESIZE_UXGA,
      jpeg_quality := 12,
      fb_count := 1,
      fb_location := .CAMERA_FB_IN_PSRAM } }

/-- The driver call `esp_camera_sensor_get()`: whether it returns a sensor.
It returns `NULL` (`false`) while the driver is not initialised, that is
before the first init, after `esp_camera_deinit` and after a failed
`esp_camera_init`. -/
def esp_camera_sensor_get (s : Sys) : Bool := s.driver.isSome

/-- Function `CameraTask_InitSensorConfig` (cameraTask.cpp 120-133): the pointer
returned by `esp_camera_sensor_get` is stored in `cameraSensor` and used
unchecked. When it is `NULL` the first access `cameraSensor->set_contrast`
faults and no setter is called; otherwise the five setters are called in
source order. -/
def CameraTask_InitSensorConfig (s : Sys) : Sys :=
  if esp_camera_sensor_get s = false then { s with sensorFault := true }
  else
  let s := { s with sensor := { s.sensor with contrast := s.cameraParamLevel } }.log
    (.set_contrast s.cameraParamLevel)
  let s := { s with sensor := { s.sensor with brightness := s.cameraParamLevel } }.log
    (.set_brightness s.cameraParamLevel)
  let s := { s with sensor := { s.sensor with saturation := s.cameraParamLevel } }.log
    (.set_saturation s.cameraParamLevel)
  let flip : Int :=
    match CONFIG_MODEL with
    | .OV2640 => 0
    | .OV5640 => 1
    | .other => 1
  let s := { s with sensor := { s.sensor with vflip := flip } }.log (.set_vflip flip)
  { s with sensor := { s.sensor with special_effect := s.cameraEffectMode } }.log
    (.set_special_effect s.cameraEffectMode)

/-- The driver call `esp_camera_deinit()`. -/
def esp_camera_deinit (s : Sys) : Sys :=
  { s with driver := none }.log .esp_camera_deinit

/-- The driver call `esp_camera_init(&cameraConfig)`; `ok` is whether it
returns `ESP_OK`. -/
def esp_camera_init (ok : Bool) (s : Sys) : Sys :=
  { s with driver := if ok then some s.cameraConfig else none }.log
    (.esp_camera_init s.cameraConfig ok)

/-! ## displayTask.cpp: parameter keys of the preview branch -/

/-- Top-key block of the preview branch of `DisplayTask`
(displayTask.cpp 271-280). -/
def DisplayTask_topKey (s : Sys) : Sys :=
  if s.keyTopState = 1 then
    let s := { s with keyTopState := 0 }
    let s :=
      if s.cameraEffectMode > 5 then { s with cameraEffectMode := 0 }
      else { s with cameraEffectMode := s.cameraEffectMode + 1 }
    CameraTask_InitSensorConfig s
  else s

/-- Down-key block of the preview branch of `DisplayTask`
(displayTask.cpp 282-291). -/
def DisplayTask_downKey (s : Sys) : Sys :=
  if s.keyDownState = 1 then
    let s := { s with keyDownState := 0 }
    let s :=
      if s.cameraParamLevel > 1 then { s with cameraParamLevel := -2 }
      else { s with cameraParamLevel := s.cameraParamLevel + 1 }
    CameraTask_InitSensorConfig s
  else s

/-- A top-key press: `topSingleClick` sets the key state, the block runs. -/
def pressTop (s : Sys) : Sys := DisplayTask_topKey { s with keyTopState := 1 }

/-- A down-key press: `downSingleClick` sets the key state, the block runs. -/
def pressDown (s : Sys) : Sys := DisplayTask_downKey { s with keyDownState := 1 }

/-! ## cameraTask.cpp / displayTask.cpp: the frame hand-off -/

/-- A FreeRTOS queue as the source uses it: its length (first argument of
`xQueueCreate`) and the items waiting in it, oldest first. -/
structure Queue (α : Type) where
  uxQueueLength : Nat
  items : List α
  deriving DecidableEq, Repr

/-- The call `xQueueCreate(uxQueueLength, itemSize)`: an empty queue. -/
def xQueueCreate (α : Type) (uxQueueLength : Nat) : Queue α :=
  { uxQueueLength := uxQueueLength, items := [] }

/-- The call `xQueueSend(q, &item, 0)`: with a timeout of zero ticks the item
is appended when there is room (`pdTRUE`), and otherwise the queue is left
alone and the call returns at once with `errQUEUE_FULL` (`false`). -/
def xQueueSend {α : Type} (q : Queue α) (item : α) : Queue α × Bool :=
  if q.items.length < q.uxQueueLength then ({ q with items := q.items ++ [item] }, true)
  else (q, false)

/-- The call `xQueueReceive(q, &item, portMAX_DELAY)`: the oldest item is
removed and handed out; on an empty queue the caller stays blocked (`none`). -/
def xQueueReceive {α : Type} (q : Queue α) : Option (α × Queue α) :=
  match q.items with
  | [] => none
  | item :: rest => some (item, { q with items := rest })

/-- A `camera_fb_t *` handed out by `esp_camera_fb_get`, named by the serial
number of the acquisition that produced it. -/
abbrev FramePtr := Nat

/-- The state shared by `CameraTask` and `DisplayTask_ShowCamera`, with the
bookkeeping of the driver behind it: how many frames it has handed out and
which ones have come back through `esp_camera_fb_return`, oldest first. -/
structure Handoff where
  cameraFrameQueue : Queue FramePtr
  acquired : Nat
  released : List FramePtr
  deriving DecidableEq, Repr

/-- The hand-off state right after `CameraTask_Init`:
`cameraFrameQueue = xQueueCreate(1, sizeof(camera_fb_t *))`, nothing acquired. -/
def Handoff.init : Handoff :=
  { cameraFrameQueue := xQueueCreate FramePtr 1, acquired := 0, released := [] }

/-- One iteration of the loop of `CameraTask` (cameraTask.cpp 102-113);
`fbOk` is whether `esp_camera_fb_get` returns a frame. The delays are not
modelled. -/
def CameraTask_iteration (fbOk : Bool) (s : Handoff) : Handoff :=
  if fbOk = false then s
  else
    let fb : FramePtr := s.acquired
    let s := { s with acquired := s.acquired + 1 }
    let r := xQueueSend s.cameraFrameQueue fb
    if r.2 ≠ true then
      { s with cameraFrameQueue := r.1, released := s.released ++ [fb] }
    else
      { s with cameraFrameQueue := r.1 }

/-- The queue side of `DisplayTask_ShowCamera` (displayTask.cpp 214-252): a
frame is received, rendered (not modelled) and returned to the driver. On an
empty queue the call is still waiting and nothing has happened. -/
def DisplayTask_ShowCamera (s : Handoff) : Handoff :=
  match xQueueReceive s.cameraFrameQueue with
  | none => s
  | some (frameBuffer, q) =>
    { s with cameraFrameQueue := q, released := s.released ++ [frameBuffer] }

/-- A step of an interleaving of the two tasks. -/
inductive HandoffStep where
  | produce (fbOk : Bool)
  | drain
  deriving DecidableEq, Repr

/-- Effect of one step. -/
def Handoff.step (s : Handoff) : HandoffStep → Handoff
  | .produce fbOk => CameraTask_iteration fbOk s
  | .drain => DisplayTask_ShowCamera s

/-- Effect of a finite interleaving. -/
def Handoff.run (s : Handoff) (steps : List HandoffStep) : Handoff :=
  steps.foldl Handoff.step s

/-! ## tfCard.cpp -/

/-- The call `SD.exists("/photo_<index>.jpg")`. -/
def SD_exists (sd : SdCard) (index : Nat) : Bool :=
  sd.photos.any (fun f => f.1 == index)

/-- The loop of `TfCard_GetNextPhotoIndex` (tfCard.cpp 40-51) from `index`,
run for at most `fuel` iterations; `none` when the loop has not left by then. -/
def TfCard_GetNextPhotoIndex_loop (sd : SdCard) : Nat → Nat → Option Nat
  | 0, _ => none
  | fuel + 1, index =>
    if SD_exists sd index = false then some index
    else TfCard_GetNextPhotoIndex_loop sd fuel (index + 1)

/-- Function `TfCard_GetNextPhotoIndex` (tfCard.cpp 37-53): the loop from index 1. One
iteration more than there are files is enough for it to leave. -/
def TfCard_GetNextPhotoIndex (sd : SdCard) : Option Nat :=
  TfCard_GetNextPhotoIndex_loop sd (sd.photos.length + 1) 1

/-- Function `TfCard_WritePhoto` (tfCard.cpp 60-72); `openOk` is whether `SD.open`
returns a file. `none` when the index scan does not return. -/
def TfCard_WritePhoto (openOk : Bool) (data : List Nat) (size : Nat) (s : Sys) : Option Sys :=
  match TfCard_GetNextPhotoIndex s.sd with
  | none => none
  | some photoIndex =>
    if openOk then
      some ({ s with sd := { photos := s.sd.photos ++ [(photoIndex, data.take size)] } }.log
        (.fileWrite photoIndex (data.take size)))
    else some s

/-! ## keyTask.cpp / displayTask.cpp: the photo save sequence -/

/-- Function `KeyTask_SetLED` (keyTask.cpp 161-163): the LED is active low. -/
def KeyTask_SetLED (ledOn : Bool) (s : Sys) : Sys :=
  { s with ledHigh := !ledOn }.log (.ledWrite (!ledOn))

/-- The scheduler call `vTaskDelete(task)`. -/
def vTaskDelete (task : Nat) (s : Sys) : Sys :=
  { s with cameraTasks := s.cameraTasks.filter (fun t => t != task) }.log (.vTaskDelete task)

/-- The call `xTaskCreatePinnedToCore(CameraTask, ..., &cameraTaskHandle, 0)`:
a new task is created and its handle stored. -/
def xTaskCreate_CameraTask (s : Sys) : Sys :=
  { s with cameraTaskHandle := some s.nextTask,
           cameraTasks := s.cameraTasks ++ [s.nextTask],
           nextTask := s.nextTask + 1 }.log (.xTaskCreate s.nextTask)

/-- What the environment answers during one call of `DisplayTask_SavePhoto`. -/
structure SaveEnv where
  /-- the photo-mode `esp_camera_init` returns `ESP_OK` -/
  photoInitOk : Bool
  /-- the result of `esp_camera_fb_get`; `none` is `NULL` -/
  frame : Option Frame
  /-- the call `SD.open` returns a file -/
  openOk : Bool
  /-- the preview-mode `esp_camera_init` returns `ESP_OK` -/
  previewInitOk : Bool
  deriving DecidableEq, Repr

/-- How a call of `DisplayTask_SavePhoto` ends. -/
inductive SaveExit where
  /-- the last statement was reached -/
  | completed
  /-- the `return` after the failed photo-mode init (line 70) -/
  | photoInitFailed
  /-- the call of `CameraTask_InitSensorConfig` (line 67 or line 80) has
  dereferenced a `NULL` sensor pointer -/
  | nullSensor
  /-- the access `fb->buf` was evaluated with `fb == NULL` (line 73) -/
  | nullFrame
  /-- the index scan of the SD card does not return -/
  | scanStuck
  deriving DecidableEq, Repr

/-- First part of `DisplayTask_SavePhoto` (displayTask.cpp 52-67): the popup
is shown, the camera task is deleted if its handle is set, the camera is
re-initialised with the photo profile and, before the result of the init is
looked at, the sensor is configured. -/
def DisplayTask_SavePhoto_toPhotoMode (env : SaveEnv) (s : Sys) : Sys :=
  let s := { s with isSavingPopupVisible := true }.log (.popup true)
  let s :=
    match s.cameraTaskHandle with
    | some h => { vTaskDelete h s with cameraTaskHandle := none }
    | none => s
  let s := esp_camera_deinit s
  let s := CameraTask_InitPhotoConfig s
  let s := esp_camera_init env.photoInitOk s
  CameraTask_InitSensorConfig s

/-- Last part of `DisplayTask_SavePhoto` (displayTask.cpp 75-86): the camera
is re-initialised with the preview profile (the result of `esp_camera_init` is
not looked at) and the sensor is configured; unless that call has faulted on a
`NULL` sensor pointer, the LED is switched off, the popup is hidden and the
camera task is created again. -/
def DisplayTask_SavePhoto_toPreviewMode (env : SaveEnv) (s : Sys) : Sys × SaveExit :=
  let s := esp_camera_deinit s
  let s := CameraTask_InitPreviewConfig s
  let s := esp_camera_init env.previewInitOk s
  let s := CameraTask_InitSensorConfig s
  if esp_camera_sensor_get s = false then (s, .nullSensor)
  else
    let s := KeyTask_SetLED false s
    let s := { s with isSavingPopupVisible := false }.log (.popup false)
    (xTaskCreate_CameraTask s, .completed)

/-- Function `DisplayTask_SavePhoto` (displayTask.cpp 51-87). The delays and the serial
log are not modelled. -/
def DisplayTask_SavePhoto (env : SaveEnv) (s : Sys) : Sys × SaveExit :=
  let s := DisplayTask_SavePhoto_toPhotoMode env s
  if esp_camera_sensor_get s = false then (s, .nullSensor)
  else if env.photoInitOk = false then (s, .photoInitFailed)
  else
    let s := s.log (.esp_camera_fb_get env.frame)
    match env.frame with
    | none => (s, .nullFrame)
    | some fb =>
      let s := s.log (.TfCard_WritePhoto fb.buf fb.len)
      match TfCard_WritePhoto env.openOk fb.buf fb.len s with
      | none => (s, .scanStuck)
      | some s =>
        let s := s.log (.esp_camera_fb_return fb)
        DisplayTask_SavePhoto_toPreviewMode env s

/-- The Preview profile written by `CameraTask_InitPreviewConfig`. -/
def previewProfile : CameraConfig :=
  { ledc_channel := 0, ledc_timer := 0,
    pin_d0 := 16, pin_d1 := 38, pin_d2 := 15, pin_d3 := 39,
    pin_d4 := 41, pin_d5 := 40, pin_d6 := 42, pin_d7 := 21,
    pin_xclk := -1, pin_pclk := 45, pin_vsync := 48, pin_href := 47,
    pin_sccb_sda := 17, pin_sccb_scl := 18, pin_pwdn := 46, pin_reset := -1,
    xclk_freq_hz := 20000000,
    pixel_format := .PIXFORMAT_RGB565,
    frame_size := .FRAMESIZE_QVGA,
    jpeg_quality := 20,
    fb_count := 2,
    fb_location := .CAMERA_FB_IN_PSRAM }

/-- The state of the globals at the end of `setup()` on a card without
photos: preview configured and initialised, parameters 0, `CameraTask` 0
running. Used as a concrete instance. -/
def Sys.boot : Sys :=
  { cameraEffectMode := 0, cameraParamLevel := 0,
    cameraConfig := previewProfile,
    sensor := { contrast := 0, brightness := 0, saturation := 0, vflip := 0, special_effect := 0 },
    driver := some previewProfile,
    keyMidState := 0, keyTopState := 0, keyDownState := 0,
    ledHigh := true, isSavingPopupVisible := false,
    cameraTaskHandle := some 0, cameraTasks := [0], nextTask := 1,
    sd := { photos := [] }, trace := [], sensorFault := false }

/-! ## Scenarios for the key automaton -/

/-- A press at `t1`, ticks while held, the release at `t2`, ticks while the
double-click window is open, a second press at `t3`, and further ticks. -/
def doubleClickRun (t1 t2 t3 : Nat) (pin3 : Bool) (hold wait rest : List Tick) : List Tick :=
  ⟨true, t1, false⟩ :: hold ++ ⟨false, t2, true⟩ :: wait ++ ⟨true, t3, pin3⟩ :: rest

/-- A press at `t1`, ticks while held, the release at `t2`, ticks up to the
first one `x` that is late enough to close the window, and further ticks. -/
def singleClickRun (t1 t2 : Nat) (hold wait : List Tick) (x : Tick) (rest : List Tick) :
    List Tick :=
  ⟨true, t1, false⟩ :: hold ++ ⟨false, t2, true⟩ :: wait ++ x :: rest

/-- The ticks of a run are taken at non-decreasing times below `2^32`
(no wrap of `millis()`). -/
def Monotone32 (ticks : List Tick) : Prop :=
  List.Pairwise (fun a b => a ≤ b) (ticks.map Tick.now) ∧ ∀ t ∈ ticks, t.now < ULONG_RANGE

/-- The ticks `seg`, run from key record `key`, stay within one press cycle:
after every tick but the last the key is not in KEY_IDLE (so the key can be
back in KEY_IDLE only at the very end of `seg`). -/
def WithinCycle (key : KeyInfo) (seg : List Tick) : Prop :=
  ∀ s ∈ (runStates key seg).dropLast, s ≠ KeyState.KEY_IDLE

/-- An environment in which every driver call of the save sequence succeeds;
the frame is a three-byte stand-in for a JPEG image. -/
def SaveEnv.allOk : SaveEnv :=
  { photoInitOk := true,
    frame := some { buf := [255, 216, 255], len := 3, width := 1280, height := 1024 },
    openOk := true,
    previewInitOk := true }

/-! ## Traces of the save sequence -/

/-- The Photo profile written by `CameraTask_InitPhotoConfig` for the camera
model of `config.h` (OV2640: SXGA). -/
def photoProfile : CameraConfig :=
  { ledc_channel := 0, ledc_timer := 0,
    pin_d0 := 16, pin_d1 := 38, pin_d2 := 15, pin_d3 := 39,
    pin_d4 := 41, pin_d5 := 40, pin_d6 := 42, pin_d7 := 21,
    pin_xclk := -1, pin_pclk := 45, pin_vsync := 48, pin_href := 47,
    pin_sccb_sda := 17, pin_sccb_scl := 18, pin_pwdn := 46, pin_reset := -1,
    xclk_freq_hz := 20000000,
    pixel_format := .PIXFORMAT_JPEG,
    frame_size := .FRAMESIZE_SXGA,
    jpeg_quality := 12,
    fb_count := 1,
    fb_location := .CAMERA_FB_IN_PSRAM }

/-- The five setter calls of `CameraTask_InitSensorConfig`, in source order,
for parameter level `level` and effect mode `effect`. -/
def sensorCalls (level effect : Int) : List Action :=
  [.set_contrast level, .set_brightness level, .set_saturation level, .set_vflip 0,
   .set_special_effect effect]

/-- The scheduler call made for the handle found in `cameraTaskHandle`:
`vTaskDelete` when it is set, nothing when it is `NULL`. -/
def stopActions : Option Nat → List Action
  | some h => [.vTaskDelete h]
  | none => []

/-- The actions that `after` has logged on top of the trace of `before`. -/
def actionsSince (before after : Sys) : List Action :=
  after.trace.drop before.trace.length

/-- Calls into the camera sensor driver: `esp_camera_deinit`,
`esp_camera_init`, the sensor setters, `esp_camera_fb_get` and
`esp_camera_fb_return`. -/
def Action.isDriverCall : Action → Bool
  | .esp_camera_deinit => true
  | .esp_camera_init _ _ => true
  | .set_contrast _ => true
  | .set_brightness _ => true
  | .set_saturation _ => true
  | .set_vflip _ => true
  | .set_special_effect _ => true
  | .esp_camera_fb_get _ => true
  | .esp_camera_fb_return _ => true
  | _ => false

/-- Scan of a trace for exclusive use of the sensor driver. `running` says
whether a camera task exists at this point: `vTaskDelete` clears it,
`xTaskCreate` sets it, and a driver call made while it is set fails the scan. -/
def exclusiveFrom (running : Bool) : List Action → Bool
  | [] => true
  | .vTaskDelete _ :: rest => exclusiveFrom false rest
  | .xTaskCreate _ :: rest => exclusiveFrom true rest
  | a :: rest => !(running && a.isDriverCall) && exclusiveFrom running rest

/-- Whether a call of `DisplayTask_SavePhoto` with this exit returns to its
caller. -/
def SaveExit.returns : SaveExit → Bool
  | .completed => true
  | .photoInitFailed => true
  | .nullSensor => false
  | .nullFrame => false
  | .scanStuck => false

/-- The action creates a camera task. -/
def Action.isTaskCreate : Action → Bool
  | .xTaskCreate _ => true
  | _ => false

/-- The action is the first one of `DisplayTask_SavePhoto`: the saving popup
is switched on. -/
def Action.isSaveStart : Action → Bool
  | .popup true => true
  | _ => false

/-- The action drives the flash LED pin LOW (LED on). -/
def Action.isFlashOn : Action → Bool
  | .ledWrite false => true
  | _ => false

/-! ## keyTask.cpp: the callbacks -/

/-- Callback `camSingleClick` (keyTask.cpp 126). -/
def camSingleClick (env : SaveEnv) (s : Sys) : Sys × SaveExit :=
  DisplayTask_SavePhoto env s

/-- Callback `camDoubleClick` (keyTask.cpp 127): LED on, save, LED off. The
last call is made only when the save returns. -/
def camDoubleClick (env : SaveEnv) (s : Sys) : Sys × SaveExit :=
  let s := KeyTask_SetLED true s
  let r := DisplayTask_SavePhoto env s
  if r.2.returns then (KeyTask_SetLED false r.1, r.2) else r

/-- Callback `camLongPress` (keyTask.cpp 128): LED on, save, LED off. The
last call is made only when the save returns. -/
def camLongPress (env : SaveEnv) (s : Sys) : Sys × SaveExit :=
  let s := KeyTask_SetLED true s
  let r := DisplayTask_SavePhoto env s
  if r.2.returns then (KeyTask_SetLED false r.1, r.2) else r

/-- Callback `midSingleClick` (keyTask.cpp 134): `keyMidState = !keyMidState`
on an `int`, so 0 becomes 1 and every other value becomes 0. -/
def midSingleClick (s : Sys) : Sys :=
  { s with keyMidState := if s.keyMidState = 0 then 1 else 0 }

/-- Callback `midDoubleClick` (keyTask.cpp 135): empty body. -/
def midDoubleClick (s : Sys) : Sys := s

/-- Callback `midLongPress` (keyTask.cpp 136): empty body. -/
def midLongPress (s : Sys) : Sys := s

/-- The callback that `handleKey` invokes for the middle key (the call on
line 151 of keyTask.cpp) when it fires the given event. -/
def midKeyEvent : KeyEvent → Sys → Sys
  | .singleClick => midSingleClick
  | .doubleClick => midDoubleClick
  | .longPress => midLongPress

/-! ## displayTask.cpp: the grid overlay -/

/-- The buffer indices that `DisplayTask_DrawGrid3x3` assigns, in source
order: two per row in the first loop, two per column in the second. -/
def DisplayTask_DrawGrid3x3_writes (width height : Nat) : List Nat :=
  (List.range height).flatMap
      (fun y => [y * width + width / 3, y * width + 2 * (width / 3)]) ++
    (List.range width).flatMap
      (fun x => [height / 3 * width + x, 2 * (height / 3) * width + x])

/-- Function `DisplayTask_DrawGrid3x3` (displayTask.cpp 169-188) on a buffer
given as the list of its pixels: every assignment stores `color`. -/
def DisplayTask_DrawGrid3x3 (image : List Nat) (width height : Nat) (color : Nat) : List Nat :=
  (DisplayTask_DrawGrid3x3_writes width height).foldl (fun img i => img.set i color) image

/-- The pixel at column `x`, row `y` lies on one of the four grid lines. -/
def onGrid (width height x y : Nat) : Prop :=
  x = width / 3 ∨ x = 2 * (width / 3) ∨ y = height / 3 ∨ y = 2 * (height / 3)

/-! ## cameraTask.cpp: initialisation -/

/-- The closing loop `while (1) { delay(1000); }` of `DisplayTask_ShowError`
(displayTask.cpp 203-205), run for at most `fuel` iterations: whether the loop
has been left by then. The body has no exit. -/
def DisplayTask_ShowError_loop : Nat → Bool
  | 0 => false
  | fuel + 1 => DisplayTask_ShowError_loop fuel

/-- Function `DisplayTask_ShowError` (displayTask.cpp 190-206): whether the call has
returned after at most `fuel` iterations of its closing loop. The drawing
before the loop is not modelled. -/
def DisplayTask_ShowError (fuel : Nat) : Bool :=
  DisplayTask_ShowError_loop fuel

/-- Where a run of `CameraTask_Init` is after the fuel given to it. -/
inductive InitExit where
  /-- the function has returned -/
  | returned
  /-- control is inside `DisplayTask_ShowError` -/
  | inShowError
  /-- control is in the `while (1) {}` after a failed `xQueueCreate` -/
  | noQueue
  /-- the retry loop has used up its fuel -/
  | outOfFuel
  deriving DecidableEq, Repr

/-- The retry loop of `CameraTask_Init` (cameraTask.cpp 143-152) for at most
`fuel` iterations; `attempt` numbers the next `esp_camera_init` call and
`answers attempt` is whether it returns `ESP_OK`. -/
def CameraTask_Init_retry (answers : Nat → Bool) (showFuel : Nat) :
    Nat → Nat → Sys → Sys × InitExit
  | 0, _, s => (s, .outOfFuel)
  | fuel + 1, attempt, s =>
    if DisplayTask_ShowError showFuel = false then (s, .inShowError)
    else
      let s := esp_camera_deinit s
      let s := CameraTask_InitPreviewConfig s
      let s := esp_camera_init (answers attempt) s
      if answers attempt = true then (s, .returned)
      else CameraTask_Init_retry answers showFuel fuel (attempt + 1) s

/-- Function `CameraTask_Init` (cameraTask.cpp 135-163). `answers k` is the result of
the `k`-th call of `esp_camera_init`, `queueOk` whether `xQueueCreate`
returns a queue. The result is the state, the queue if one was created, and
where control is. -/
def CameraTask_Init (answers : Nat → Bool) (queueOk : Bool) (fuel showFuel : Nat) (s : Sys) :
    Sys × Option (Queue FramePtr) × InitExit :=
  let s := CameraTask_InitPreviewConfig s
  let s := esp_camera_init (answers 0) s
  let r := if answers 0 = false then CameraTask_Init_retry answers showFuel fuel 1 s
           else (s, InitExit.returned)
  match r.2 with
  | .returned =>
    if queueOk then
      (CameraTask_InitSensorConfig r.1, some (xQueueCreate FramePtr 1), .returned)
    else (r.1, none, .noQueue)
  | e => (r.1, none, e)

/-- Number of `esp_camera_init` calls in a trace. -/
def countInit (trace : List Action) : Nat :=
  trace.countP (fun a => match a with
    | .esp_camera_init _ _ => true
    | _ => false)

/-- A driver that fails the first `esp_camera_init` and answers `ESP_OK` to
every later one. -/
def answersSecondOk : Nat → Bool := fun k => decide (1 ≤ k)

/-! ## displayTask.cpp: the frame-rate bookkeeping -/

/-- The value of a C `int` (32 bits, two's complement) after an arithmetic
result `x`: values outside the range wrap, as on the target. -/
def int32 (x : Int) : Int := (x + 2 ^ 31) % 2 ^ 32 - 2 ^ 31

/-- The value held by `float frameRate`, kept as the operands of the float
expression that produced it: `zero` is the initialiser `0`, and
`quotient frames millis` is `frames * 1000.0f / millis`. -/
inductive FrameRate where
  | zero
  | quotient (frames : Int) (millis : Nat)
  deriving DecidableEq, Repr

/-- The statics `lastFrameMillis`, `frameCount` and the global `frameRate`
of displayTask.cpp. -/
structure FpsState where
  lastFrameMillis : Nat
  frameCount : Int
  frameRate : FrameRate
  deriving DecidableEq, Repr

/-- The initialisers of the three variables. -/
def FpsState.init : FpsState :=
  { lastFrameMillis := 0, frameCount := 0, frameRate := .zero }

/-- The frame-rate part of `DisplayTask_ShowCamera` (displayTask.cpp 215-221),
run for a received frame with `now = millis()`. -/
def DisplayTask_ShowCamera_frameRate (now : Nat) (st : FpsState) : FpsState :=
  let st := { st with frameCount := int32 (st.frameCount + 1) }
  if usub now st.lastFrameMillis ≥ 1000 then
    { lastFrameMillis := now,
      frameCount := 0,
      frameRate := .quotient st.frameCount (usub now st.lastFrameMillis) }
  else st

/-! ## displayTask.cpp: sequences of parameter key presses -/

/-- The two parameter keys of the preview branch. -/
inductive PreviewKey where
  | top
  | down
  deriving DecidableEq, Repr

/-- One key step of the preview branch. -/
def pressKey (s : Sys) : PreviewKey → Sys
  | .top => pressTop s
  | .down => pressDown s

/-- A sequence of key steps of the preview branch. -/
def pressKeys (s : Sys) (keys : List PreviewKey) : Sys :=
  keys.foldl pressKey s

/-- The update of `cameraEffectMode` in the top-key block
(displayTask.cpp 273-277). -/
def effectStep (e : Int) : Int := if e > 5 then 0 else e + 1

/-- The update of `cameraParamLevel` in the down-key block
(displayTask.cpp 284-288). -/
def levelStep (l : Int) : Int := if l > 1 then -2 else l + 1

/-! ## Theorems -/

theorem usub_self (a : Nat) : usub a a = 0 := by
  unfold usub ULONG_RANGE
  have : a % 2 ^ 32 < 2 ^ 32 := Nat.mod_lt _ (by norm_num)
  omega

theorem usub_of_le (a b : Nat) (hab : b ≤ a) (ha : a < ULONG_RANGE) : usub a b = a - b := by
  unfold usub ULONG_RANGE at *
  omega

/-- C4: in KEY_PRESSED with `now - pressStart > 800`, one evaluation fires
exactly the long-press event and sets `skipSingle`, whatever the pin and the
flag; it ends in KEY_LONG_PRESSED when the pin is low and in KEY_IDLE, with
`lastPress` untouched, when the pin is high. -/
theorem longPress_priority (key : KeyInfo) (now : Nat) (pinHigh : Bool)
    (hs : key.state = .KEY_PRESSED) (hl : usub now key.pressStart > LONG_PRESS_MS) :
    (handleKey key now pinHigh).2 = [.longPress] ∧
    (handleKey key now pinHigh).1.skipSingle = true ∧
    (pinHigh = false → (handleKey key now pinHigh).1.state = .KEY_LONG_PRESSED) ∧
    (pinHigh = true → (handleKey key now pinHigh).1.state = .KEY_IDLE) ∧
    (handleKey key now pinHigh).1.state ≠ .KEY_WAIT_SECOND ∧
    (handleKey key now pinHigh).1.lastPress = key.lastPress := by
  cases hf : key.flag <;> cases pinHigh <;>
    simp [handleKey, handleKey_flag, handleKey_long, handleKey_release, handleKey_timeout,
      hs, hl, hf]

/-! ### Runs of the key automaton -/

theorem runKey_append (key : KeyInfo) (a b : List Tick) :
    runKey key (a ++ b) =
      ((runKey (runKey key a).1 b).1, (runKey key a).2 ++ (runKey (runKey key a).1 b).2) := by
  induction a generalizing key with
  | nil => simp [runKey]
  | cons t ts ih => simp [runKey, ih]

theorem countEvent_append (e : KeyEvent) (a b : List (List KeyEvent)) :
    countEvent e (a ++ b) = countEvent e a + countEvent e b := by
  simp [countEvent]

theorem countEvent_cons (e : KeyEvent) (l : List KeyEvent) (ls : List (List KeyEvent)) :
    countEvent e (l :: ls) = l.count e + countEvent e ls := by
  simp [countEvent]

theorem countEvent_quiet (e : KeyEvent) (n : Nat) :
    countEvent e (List.replicate n []) = 0 := by
  induction n with
  | zero => simp [countEvent]
  | succ n ih => simp [countEvent, List.replicate_succ]

theorem monotone32_head (t : Tick) (ts : List Tick) (h : Monotone32 (t :: ts)) :
    t.now < ULONG_RANGE ∧ (∀ x ∈ ts, t.now ≤ x.now) ∧ Monotone32 ts := by
  obtain ⟨hp, hb⟩ := h
  simp only [List.map_cons, List.pairwise_cons] at hp
  refine ⟨hb t (by simp), ?_, hp.2, fun x hx => hb x (by simp [hx])⟩
  intro x hx
  exact hp.1 x.now (List.mem_map_of_mem _ hx)

theorem monotone32_append (a b : List Tick) (h : Monotone32 (a ++ b)) :
    Monotone32 a ∧ Monotone32 b := by
  obtain ⟨hp, hb⟩ := h
  simp only [List.map_append, List.pairwise_append] at hp
  exact ⟨⟨hp.1, fun t ht => hb t (by simp [ht])⟩, ⟨hp.2.1, fun t ht => hb t (by simp [ht])⟩⟩

/-- Idle and a fresh ISR flag: the press is recorded, nothing fires. -/
theorem tick_press (key : KeyInfo) (t : Tick) (hs : key.state = .KEY_IDLE)
    (hi : t.isr = true) (hp : t.pinHigh = false) :
    tick key t = ({ key with pressStart := t.now, state := .KEY_PRESSED, skipSingle := false,
                             flag := false }, []) := by
  simp [tick, handleKey, handleKey_flag, handleKey_long, handleKey_release, handleKey_timeout,
    hs, hi, hp, usub_self, LONG_PRESS_MS]

/-- Held, pin low, threshold not exceeded: nothing changes (a flag is dropped). -/
theorem tick_held (key : KeyInfo) (t : Tick) (hs : key.state = .KEY_PRESSED)
    (hf : key.flag = false) (hp : t.pinHigh = false)
    (hl : usub t.now key.pressStart ≤ LONG_PRESS_MS) :
    tick key t = (key, []) := by
  have hl2 : ¬ (LONG_PRESS_MS < usub t.now key.pressStart) := by omega
  obtain ⟨pin, st, ps, lp, fl, sk⟩ := key
  simp only at hs hf hl2
  subst hs hf
  cases hisr : t.isr <;>
    simp [tick, handleKey, handleKey_flag, handleKey_long, handleKey_release, handleKey_timeout,
      hisr, hp, hl2]

theorem runKey_held (ticks : List Tick) (key : KeyInfo) (hs : key.state = .KEY_PRESSED)
    (hf : key.flag = false)
    (h : ∀ t ∈ ticks, t.pinHigh = false ∧ usub t.now key.pressStart ≤ LONG_PRESS_MS) :
    runKey key ticks = (key, List.replicate ticks.length []) := by
  induction ticks with
  | nil => simp [runKey]
  | cons t ts ih =>
    have ht := h t (by simp)
    have hstep := tick_held key t hs hf ht.1 ht.2
    have hrest := ih (fun x hx => h x (by simp [hx]))
    simp [runKey, hstep, hrest, List.replicate_succ]

/-- Held, pin high, threshold not exceeded: the release is recorded and the
double-click window opens; nothing fires. -/
theorem tick_release (key : KeyInfo) (t : Tick) (hs : key.state = .KEY_PRESSED)
    (hf : key.flag = false) (hi : t.isr = false) (hp : t.pinHigh = true)
    (hl : usub t.now key.pressStart ≤ LONG_PRESS_MS) :
    tick key t = ({ key with lastPress := t.now, state := .KEY_WAIT_SECOND }, []) := by
  have hl2 : ¬ (LONG_PRESS_MS < usub t.now key.pressStart) := by omega
  obtain ⟨pin, st, ps, lp, fl, sk⟩ := key
  simp only at hs hf hl2
  subst hs hf
  simp [tick, handleKey, handleKey_flag, handleKey_long, handleKey_release, handleKey_timeout,
    hi, hp, hl2, usub_self, DOUBLE_CLICK_MS]

/-- Waiting for a second press, no flag, window not exceeded: nothing changes. -/
theorem tick_waiting (key : KeyInfo) (t : Tick) (hs : key.state = .KEY_WAIT_SECOND)
    (hf : key.flag = false) (hi : t.isr = false)
    (hw : usub t.now key.lastPress ≤ DOUBLE_CLICK_MS) :
    tick key t = (key, []) := by
  have hw2 : ¬ (DOUBLE_CLICK_MS < usub t.now key.lastPress) := by omega
  obtain ⟨pin, st, ps, lp, fl, sk⟩ := key
  simp only at hs hf hw2
  subst hs hf
  simp [tick, handleKey, handleKey_flag, handleKey_long, handleKey_release, handleKey_timeout,
    hi, hw2]

theorem runKey_waiting (ticks : List Tick) (key : KeyInfo) (hs : key.state = .KEY_WAIT_SECOND)
    (hf : key.flag = false)
    (h : ∀ t ∈ ticks, t.isr = false ∧ usub t.now key.lastPress ≤ DOUBLE_CLICK_MS) :
    runKey key ticks = (key, List.replicate ticks.length []) := by
  induction ticks with
  | nil => simp [runKey]
  | cons t ts ih =>
    have ht := h t (by simp)
    have hstep := tick_waiting key t hs hf ht.1 ht.2
    have hrest := ih (fun x hx => h x (by simp [hx]))
    simp [runKey, hstep, hrest, List.replicate_succ]

/-- Waiting for a second press, flag set inside the window: the double click
fires and the key is idle again. -/
theorem tick_double (key : KeyInfo) (t : Tick) (hs : key.state = .KEY_WAIT_SECOND)
    (hi : t.isr = true) (hw : usub t.now key.lastPress < DOUBLE_CLICK_MS) :
    tick key t = ({ key with state := .KEY_IDLE, skipSingle := true, flag := false },
                  [.doubleClick]) := by
  simp [tick, handleKey, handleKey_flag, handleKey_long, handleKey_release, handleKey_timeout,
    hs, hi, hw]

/-- Waiting for a second press, no flag, window exceeded, single click not
suppressed: the single click fires and the key is idle again. -/
theorem tick_single (key : KeyInfo) (t : Tick) (hs : key.state = .KEY_WAIT_SECOND)
    (hf : key.flag = false) (hk : key.skipSingle = false) (hi : t.isr = false)
    (hw : usub t.now key.lastPress > DOUBLE_CLICK_MS) :
    tick key t = ({ key with state := .KEY_IDLE }, [.singleClick]) := by
  obtain ⟨pin, st, ps, lp, fl, sk⟩ := key
  simp only at hs hf hk hw
  subst hs hf hk
  simp [tick, handleKey, handleKey_flag, handleKey_long, handleKey_release, handleKey_timeout,
    hi, hw]

/-- Idle without a flag: nothing happens. -/
theorem tick_idle (key : KeyInfo) (t : Tick) (hs : key.state = .KEY_IDLE)
    (hf : key.flag = false) (hi : t.isr = false) :
    tick key t = (key, []) := by
  obtain ⟨pin, st, ps, lp, fl, sk⟩ := key
  simp only at hs hf
  subst hs hf
  simp [tick, handleKey, handleKey_flag, handleKey_long, handleKey_release, handleKey_timeout, hi]

theorem runKey_idle (ticks : List Tick) (key : KeyInfo) (hs : key.state = .KEY_IDLE)
    (hf : key.flag = false) (h : ∀ t ∈ ticks, t.isr = false) :
    runKey key ticks = (key, List.replicate ticks.length []) := by
  induction ticks with
  | nil => simp [runKey]
  | cons t ts ih =>
    have hstep := tick_idle key t hs hf (h t (by simp))
    have hrest := ih (fun x hx => h x (by simp [hx]))
    simp [runKey, hstep, hrest, List.replicate_succ]

/-- Held past the threshold with the pin still low: the long press fires. -/
theorem tick_long (key : KeyInfo) (t : Tick) (hs : key.state = .KEY_PRESSED)
    (hp : t.pinHigh = false) (hl : usub t.now key.pressStart > LONG_PRESS_MS) :
    tick key t = ({ key with state := .KEY_LONG_PRESSED, skipSingle := true, flag := false },
                  [.longPress]) := by
  cases hf : key.flag <;> cases hi : t.isr <;>
    simp [tick, handleKey, handleKey_flag, handleKey_long, handleKey_release, handleKey_timeout,
      hs, hp, hl, hf, hi]

/-- After the long press, pin still low: nothing changes (a flag is dropped). -/
theorem tick_longHeld (key : KeyInfo) (t : Tick) (hs : key.state = .KEY_LONG_PRESSED)
    (hf : key.flag = false) (hp : t.pinHigh = false) :
    tick key t = (key, []) := by
  obtain ⟨pin, st, ps, lp, fl, sk⟩ := key
  simp only at hs hf
  subst hs hf
  cases hi : t.isr <;>
    simp [tick, handleKey, handleKey_flag, handleKey_long, handleKey_release, handleKey_timeout,
      hi, hp]

theorem runKey_longHeld (ticks : List Tick) (key : KeyInfo) (hs : key.state = .KEY_LONG_PRESSED)
    (hf : key.flag = false) (h : ∀ t ∈ ticks, t.pinHigh = false) :
    runKey key ticks = (key, List.replicate ticks.length []) := by
  induction ticks with
  | nil => simp [runKey]
  | cons t ts ih =>
    have hstep := tick_longHeld key t hs hf (h t (by simp))
    have hrest := ih (fun x hx => h x (by simp [hx]))
    simp [runKey, hstep, hrest, List.replicate_succ]

/-! ### C1: double click -/

/-- C1: from KEY_IDLE, a press at `t1`, held ticks within 800 ms, the release
at `t2` within 800 ms of the press, flag-free ticks inside the 400 ms window,
a second flag at `t3` inside the window, then flag-free ticks: the only event
of the run is one double click, fired at `t3`; no single click fires. -/
theorem doubleClick_run (key : KeyInfo) (t1 t2 t3 : Nat) (pin3 : Bool)
    (hold wait rest : List Tick)
    (hidle : key.state = .KEY_IDLE)
    (hmono : Monotone32 (doubleClickRun t1 t2 t3 pin3 hold wait rest))
    (hhold : ∀ t ∈ hold, t.isr = false ∧ t.pinHigh = false ∧ t.now - t1 ≤ LONG_PRESS_MS)
    (h21 : t2 - t1 ≤ LONG_PRESS_MS)
    (hwait : ∀ t ∈ wait, t.isr = false ∧ t.now - t2 < DOUBLE_CLICK_MS)
    (h32 : t3 - t2 < DOUBLE_CLICK_MS)
    (hrest : ∀ t ∈ rest, t.isr = false) :
    (runKey key (doubleClickRun t1 t2 t3 pin3 hold wait rest)).2 =
        List.replicate (1 + hold.length) [] ++ List.replicate (1 + wait.length) [] ++
          [.doubleClick] :: List.replicate rest.length [] ∧
      countEvent .doubleClick (runKey key (doubleClickRun t1 t2 t3 pin3 hold wait rest)).2 = 1 ∧
      countEvent .singleClick (runKey key (doubleClickRun t1 t2 t3 pin3 hold wait rest)).2 = 0 ∧
      countEvent .longPress (runKey key (doubleClickRun t1 t2 t3 pin3 hold wait rest)).2 = 0 := by
  have hrun : doubleClickRun t1 t2 t3 pin3 hold wait rest =
      ⟨true, t1, false⟩ :: (hold ++ (⟨false, t2, true⟩ :: (wait ++ (⟨true, t3, pin3⟩ :: rest)))) := by
    simp [doubleClickRun]
  rw [hrun] at hmono ⊢
  obtain ⟨_, hge1, hm1⟩ := monotone32_head _ _ hmono
  obtain ⟨hmh, hm2⟩ := monotone32_append _ _ hm1
  obtain ⟨hb2, hge2, hm3⟩ := monotone32_head _ _ hm2
  obtain ⟨hmw, hm4⟩ := monotone32_append _ _ hm3
  obtain ⟨hb3, _, _⟩ := monotone32_head _ _ hm4
  -- the press
  have e1 := tick_press key ⟨true, t1, false⟩ hidle rfl rfl
  -- the held ticks
  have e2 := runKey_held hold (tick key ⟨true, t1, false⟩).1 (by rw [e1]) (by rw [e1]) (by
    intro t ht
    have hle : t1 ≤ t.now := hge1 t (by simp [ht])
    rw [e1]
    simp only
    rw [usub_of_le _ _ hle (hmh.2 t ht)]
    exact ⟨(hhold t ht).2.1, (hhold t ht).2.2⟩)
  -- the release
  have hle21 : t1 ≤ t2 := hge1 ⟨false, t2, true⟩ (by simp)
  have e3 := tick_release (tick key ⟨true, t1, false⟩).1 ⟨false, t2, true⟩ (by rw [e1])
    (by rw [e1]) rfl rfl (by
      rw [e1]
      simp only
      rw [usub_of_le _ _ hle21 hb2]
      exact h21)
  -- the ticks inside the window
  have e4 := runKey_waiting wait (tick (tick key ⟨true, t1, false⟩).1 ⟨false, t2, true⟩).1
    (by rw [e3]) (by rw [e3, e1]) (by
      intro t ht
      have hle : t2 ≤ t.now := hge2 t (by simp [ht])
      rw [e3]
      simp only
      rw [usub_of_le _ _ hle (hmw.2 t ht)]
      exact ⟨(hwait t ht).1, le_of_lt (hwait t ht).2⟩)
  -- the second press
  have hle32 : t2 ≤ t3 := hge2 ⟨true, t3, pin3⟩ (by simp)
  have e5 := tick_double (tick (tick key ⟨true, t1, false⟩).1 ⟨false, t2, true⟩).1
    ⟨true, t3, pin3⟩ (by rw [e3]) rfl (by
      rw [e3]
      simp only
      rw [usub_of_le _ _ hle32 hb3]
      exact h32)
  -- the ticks after the double click
  have e6 := runKey_idle rest
    (tick (tick (tick key ⟨true, t1, false⟩).1 ⟨false, t2, true⟩).1 ⟨true, t3, pin3⟩).1
    (by rw [e5]) (by rw [e5]) hrest
  have hlog : (runKey key (⟨true, t1, false⟩ ::
      (hold ++ (⟨false, t2, true⟩ :: (wait ++ (⟨true, t3, pin3⟩ :: rest)))))).2 =
        List.replicate (1 + hold.length) [] ++ List.replicate (1 + wait.length) [] ++
          [.doubleClick] :: List.replicate rest.length [] := by
    simp only [runKey, runKey_append, e2, e4, e6]
    rw [e5, e3, e1]
    simp [List.replicate_succ, Nat.add_comm 1]
  rw [hlog]
  refine ⟨rfl, ?_, ?_, ?_⟩ <;>
    simp [countEvent_append, countEvent_cons, countEvent_quiet]

/-- The run of C1 on the camera key: press at 1000, release at 1100, second
press at 1300. -/
theorem doubleClick_run_witness :
    (runKey (keyArrayInit KEY_CAM_PIN)
        (doubleClickRun 1000 1100 1300 false [⟨false, 1050, false⟩] [⟨false, 1200, true⟩]
          [⟨false, 1400, true⟩, ⟨false, 2000, true⟩])).2 =
        List.replicate (1 + 1) [] ++ List.replicate (1 + 1) [] ++
          [.doubleClick] :: List.replicate 2 [] ∧
      countEvent .doubleClick (runKey (keyArrayInit KEY_CAM_PIN)
        (doubleClickRun 1000 1100 1300 false [⟨false, 1050, false⟩] [⟨false, 1200, true⟩]
          [⟨false, 1400, true⟩, ⟨false, 2000, true⟩])).2 = 1 ∧
      countEvent .singleClick (runKey (keyArrayInit KEY_CAM_PIN)
        (doubleClickRun 1000 1100 1300 false [⟨false, 1050, false⟩] [⟨false, 1200, true⟩]
          [⟨false, 1400, true⟩, ⟨false, 2000, true⟩])).2 = 0 ∧
      countEvent .longPress (runKey (keyArrayInit KEY_CAM_PIN)
        (doubleClickRun 1000 1100 1300 false [⟨false, 1050, false⟩] [⟨false, 1200, true⟩]
          [⟨false, 1400, true⟩, ⟨false, 2000, true⟩])).2 = 0 :=
  doubleClick_run (keyArrayInit KEY_CAM_PIN) 1000 1100 1300 false [⟨false, 1050, false⟩]
    [⟨false, 1200, true⟩] [⟨false, 1400, true⟩, ⟨false, 2000, true⟩] rfl
    (by simp [Monotone32, doubleClickRun, ULONG_RANGE])
    (by simp [LONG_PRESS_MS]) (by simp [LONG_PRESS_MS])
    (by simp [DOUBLE_CLICK_MS]) (by simp [DOUBLE_CLICK_MS]) (by simp)

/-! ### C2: long press -/

theorem exists_first (p : Tick → Prop) (l : List Tick) (h : ∃ t ∈ l, p t) :
    ∃ pre x post, l = pre ++ x :: post ∧ (∀ t ∈ pre, ¬ p t) ∧ p x := by
  classical
  induction l with
  | nil => simp at h
  | cons a as ih =>
    by_cases ha : p a
    · exact ⟨[], a, as, by simp, by simp, ha⟩
    · have h2 : ∃ t ∈ as, p t := by
        obtain ⟨t, ht, hpt⟩ := h
        rcases List.mem_cons.mp ht with rfl | hmem
        · exact absurd hpt ha
        · exact ⟨t, hmem, hpt⟩
      obtain ⟨pre, x, post, hl, hpre, hx⟩ := ih h2
      refine ⟨a :: pre, x, post, by simp [hl], ?_, hx⟩
      intro t ht
      rcases List.mem_cons.mp ht with rfl | hmem
      · exact ha
      · exact hpre t hmem

/-- C2: from KEY_IDLE with the flag set at `t0`, the pin low at every tick and
some tick later than `t0 + 800`: the only event of the whole run is one long
press, fired at the first tick with `now - t0 > 800`; neither a single nor a
double click fires, whatever flags the later ticks carry. -/
theorem longPress_run (key : KeyInfo) (t0 : Nat) (rest : List Tick)
    (hidle : key.state = .KEY_IDLE)
    (hmono : Monotone32 (⟨true, t0, false⟩ :: rest))
    (hlow : ∀ t ∈ rest, t.pinHigh = false)
    (hlate : ∃ t ∈ rest, t.now - t0 > LONG_PRESS_MS) :
    ∃ pre x post, rest = pre ++ x :: post ∧
      (∀ t ∈ pre, ¬ (t.now - t0 > LONG_PRESS_MS)) ∧ x.now - t0 > LONG_PRESS_MS ∧
      (runKey key (⟨true, t0, false⟩ :: rest)).2 =
        List.replicate (1 + pre.length) [] ++ [.longPress] :: List.replicate post.length [] ∧
      countEvent .longPress (runKey key (⟨true, t0, false⟩ :: rest)).2 = 1 ∧
      countEvent .singleClick (runKey key (⟨true, t0, false⟩ :: rest)).2 = 0 ∧
      countEvent .doubleClick (runKey key (⟨true, t0, false⟩ :: rest)).2 = 0 := by
  obtain ⟨pre, x, post, hsplit, hpre, hx⟩ :=
    exists_first (fun t => t.now - t0 > LONG_PRESS_MS) rest hlate
  refine ⟨pre, x, post, hsplit, hpre, hx, ?_⟩
  subst hsplit
  obtain ⟨_, hge, hm1⟩ := monotone32_head _ _ hmono
  have e1 := tick_press key ⟨true, t0, false⟩ hidle rfl rfl
  have e2 := runKey_held pre (tick key ⟨true, t0, false⟩).1 (by rw [e1]) (by rw [e1]) (by
    intro t ht
    have hle : t0 ≤ t.now := hge t (by simp [ht])
    have hb : t.now < ULONG_RANGE := hm1.2 t (by simp [ht])
    rw [e1]
    simp only
    rw [usub_of_le _ _ hle hb]
    exact ⟨hlow t (by simp [ht]), Nat.le_of_not_lt (hpre t ht)⟩)
  have e3 := tick_long (tick key ⟨true, t0, false⟩).1 x (by rw [e1]) (hlow x (by simp)) (by
    have hle : t0 ≤ x.now := hge x (by simp)
    have hb : x.now < ULONG_RANGE := hm1.2 x (by simp)
    rw [e1]
    simp only
    rw [usub_of_le _ _ hle hb]
    exact hx)
  have e4 := runKey_longHeld post (tick (tick key ⟨true, t0, false⟩).1 x).1 (by rw [e3])
    (by rw [e3]) (fun t ht => hlow t (by simp [ht]))
  have hlog : (runKey key (⟨true, t0, false⟩ :: (pre ++ x :: post))).2 =
      List.replicate (1 + pre.length) [] ++ [.longPress] :: List.replicate post.length [] := by
    simp only [runKey, runKey_append, e2, e4]
    rw [e3, e1]
    simp [List.replicate_succ, Nat.add_comm 1]
  rw [hlog]
  refine ⟨rfl, ?_, ?_, ?_⟩ <;>
    simp [countEvent_append, countEvent_cons, countEvent_quiet]

/-- The run of C2 on the camera key: pressed at 1000 and held; the tick at
1801 is the first one later than 1800. -/
theorem longPress_run_witness :
    ∃ pre x post,
      [(⟨false, 1800, false⟩ : Tick), ⟨true, 1801, false⟩, ⟨true, 5000, false⟩] =
        pre ++ x :: post ∧
      (∀ t ∈ pre, ¬ (t.now - 1000 > LONG_PRESS_MS)) ∧ x.now - 1000 > LONG_PRESS_MS ∧
      (runKey (keyArrayInit KEY_CAM_PIN) (⟨true, 1000, false⟩ ::
        [⟨false, 1800, false⟩, ⟨true, 1801, false⟩, ⟨true, 5000, false⟩])).2 =
        List.replicate (1 + pre.length) [] ++ [.longPress] :: List.replicate post.length [] ∧
      countEvent .longPress (runKey (keyArrayInit KEY_CAM_PIN) (⟨true, 1000, false⟩ ::
        [⟨false, 1800, false⟩, ⟨true, 1801, false⟩, ⟨true, 5000, false⟩])).2 = 1 ∧
      countEvent .singleClick (runKey (keyArrayInit KEY_CAM_PIN) (⟨true, 1000, false⟩ ::
        [⟨false, 1800, false⟩, ⟨true, 1801, false⟩, ⟨true, 5000, false⟩])).2 = 0 ∧
      countEvent .doubleClick (runKey (keyArrayInit KEY_CAM_PIN) (⟨true, 1000, false⟩ ::
        [⟨false, 1800, false⟩, ⟨true, 1801, false⟩, ⟨true, 5000, false⟩])).2 = 0 :=
  longPress_run (keyArrayInit KEY_CAM_PIN) 1000
    [⟨false, 1800, false⟩, ⟨true, 1801, false⟩, ⟨true, 5000, false⟩] rfl
    (by simp [Monotone32, ULONG_RANGE]) (by simp)
    ⟨⟨true, 1801, false⟩, by simp, by simp [LONG_PRESS_MS]⟩

/-! ### C3: single click -/

/-- C3 as stated fails: with the release at 1100, the tick at exactly
1500 = 1100 + 400 fires nothing; the single click fires at the next tick. -/
theorem singleClick_not_at_window_end :
    (runKey (keyArrayInit KEY_CAM_PIN)
      [⟨true, 1000, false⟩, ⟨false, 1100, true⟩, ⟨false, 1500, true⟩, ⟨false, 1510, true⟩]).2 =
      [[], [], [], [.singleClick]] := by
  decide

/-- C3, amended: from KEY_IDLE, one press at `t1`, the release at `t2` within
800 ms, and no further flag: exactly one single click fires in the run, at the
first tick with `now - t2 > 400` (strictly later than `t2 + 400`); every tick up
to and including `t2 + 400` fires nothing. -/
theorem singleClick_run (key : KeyInfo) (t1 t2 : Nat) (hold wait : List Tick) (x : Tick)
    (rest : List Tick)
    (hidle : key.state = .KEY_IDLE)
    (hmono : Monotone32 (singleClickRun t1 t2 hold wait x rest))
    (hhold : ∀ t ∈ hold, t.isr = false ∧ t.pinHigh = false)
    (h21 : t2 - t1 ≤ LONG_PRESS_MS)
    (hwait : ∀ t ∈ wait, t.isr = false ∧ t.now - t2 ≤ DOUBLE_CLICK_MS)
    (hx : x.isr = false ∧ x.now - t2 > DOUBLE_CLICK_MS)
    (hrest : ∀ t ∈ rest, t.isr = false) :
    (runKey key (singleClickRun t1 t2 hold wait x rest)).2 =
        List.replicate (1 + hold.length) [] ++ List.replicate (1 + wait.length) [] ++
          [.singleClick] :: List.replicate rest.length [] ∧
      countEvent .singleClick (runKey key (singleClickRun t1 t2 hold wait x rest)).2 = 1 := by
  have hrun : singleClickRun t1 t2 hold wait x rest =
      ⟨true, t1, false⟩ :: (hold ++ (⟨false, t2, true⟩ :: (wait ++ (x :: rest)))) := by
    simp [singleClickRun]
  rw [hrun] at hmono ⊢
  obtain ⟨_, hge1, hm1⟩ := monotone32_head _ _ hmono
  obtain ⟨hmh, hm2⟩ := monotone32_append _ _ hm1
  obtain ⟨hb2, hge2, hm3⟩ := monotone32_head _ _ hm2
  obtain ⟨hmw, hm4⟩ := monotone32_append _ _ hm3
  obtain ⟨hbx, _, _⟩ := monotone32_head _ _ hm4
  have hle21 : t1 ≤ t2 := hge1 ⟨false, t2, true⟩ (by simp)
  have e1 := tick_press key ⟨true, t1, false⟩ hidle rfl rfl
  have e2 := runKey_held hold (tick key ⟨true, t1, false⟩).1 (by rw [e1]) (by rw [e1]) (by
    intro t ht
    have hle : t1 ≤ t.now := hge1 t (by simp [ht])
    have hle2 : t.now ≤ t2 := by
      have := hm1.1
      simp only [List.map_append, List.pairwise_append, List.map_cons] at this
      exact this.2.2 t.now (List.mem_map_of_mem _ ht) t2 (by simp)
    rw [e1]
    simp only
    rw [usub_of_le _ _ hle (hmh.2 t ht)]
    refine ⟨(hhold t ht).2, ?_⟩
    unfold LONG_PRESS_MS at h21 ⊢
    omega)
  have e3 := tick_release (tick key ⟨true, t1, false⟩).1 ⟨false, t2, true⟩ (by rw [e1])
    (by rw [e1]) rfl rfl (by
      rw [e1]
      simp only
      rw [usub_of_le _ _ hle21 hb2]
      exact h21)
  have e4 := runKey_waiting wait (tick (tick key ⟨true, t1, false⟩).1 ⟨false, t2, true⟩).1
    (by rw [e3]) (by rw [e3, e1]) (by
      intro t ht
      have hle : t2 ≤ t.now := hge2 t (by simp [ht])
      rw [e3]
      simp only
      rw [usub_of_le _ _ hle (hmw.2 t ht)]
      exact hwait t ht)
  have hle32 : t2 ≤ x.now := hge2 x (by simp)
  have e5 := tick_single (tick (tick key ⟨true, t1, false⟩).1 ⟨false, t2, true⟩).1 x
    (by rw [e3]) (by rw [e3, e1]) (by rw [e3, e1]) hx.1 (by
      rw [e3]
      simp only
      rw [usub_of_le _ _ hle32 hbx]
      exact hx.2)
  have e6 := runKey_idle rest
    (tick (tick (tick key ⟨true, t1, false⟩).1 ⟨false, t2, true⟩).1 x).1
    (by rw [e5]) (by rw [e5, e3, e1]) hrest
  have hlog : (runKey key (⟨true, t1, false⟩ ::
      (hold ++ (⟨false, t2, true⟩ :: (wait ++ (x :: rest)))))).2 =
        List.replicate (1 + hold.length) [] ++ List.replicate (1 + wait.length) [] ++
          [.singleClick] :: List.replicate rest.length [] := by
    simp only [runKey, runKey_append, e2, e4, e6]
    rw [e5, e3, e1]
    simp [List.replicate_succ, Nat.add_comm 1]
  rw [hlog]
  refine ⟨rfl, ?_⟩
  simp [countEvent_append, countEvent_cons, countEvent_quiet]

/-- The amended C3 on the camera key: release at 1100, ticks at 1300 and at
1500 = 1100 + 400 stay silent, the tick at 1510 fires the single click. -/
theorem singleClick_run_witness :
    (runKey (keyArrayInit KEY_CAM_PIN)
        (singleClickRun 1000 1100 [⟨false, 1050, false⟩]
          [⟨false, 1300, true⟩, ⟨false, 1500, true⟩] ⟨false, 1510, true⟩
          [⟨false, 1520, true⟩])).2 =
        List.replicate (1 + 1) [] ++ List.replicate (1 + 2) [] ++
          [.singleClick] :: List.replicate 1 [] ∧
      countEvent .singleClick (runKey (keyArrayInit KEY_CAM_PIN)
        (singleClickRun 1000 1100 [⟨false, 1050, false⟩]
          [⟨false, 1300, true⟩, ⟨false, 1500, true⟩] ⟨false, 1510, true⟩
          [⟨false, 1520, true⟩])).2 = 1 :=
  singleClick_run (keyArrayInit KEY_CAM_PIN) 1000 1100 [⟨false, 1050, false⟩]
    [⟨false, 1300, true⟩, ⟨false, 1500, true⟩] ⟨false, 1510, true⟩ [⟨false, 1520, true⟩] rfl
    (by simp [Monotone32, singleClickRun, ULONG_RANGE])
    (by simp) (by simp [LONG_PRESS_MS]) (by simp [DOUBLE_CLICK_MS])
    (by simp [DOUBLE_CLICK_MS]) (by simp)

/-! ### C4: long press before release -/

/-- C4 on a key pressed at 1000 and seen released at 1801: long press, then
idle, `lastPress` still 0. -/
theorem longPress_priority_witness :
    (handleKey ⟨KEY_CAM_PIN, .KEY_PRESSED, 1000, 0, false, false⟩ 1801 true).2 = [.longPress] ∧
    (handleKey ⟨KEY_CAM_PIN, .KEY_PRESSED, 1000, 0, false, false⟩ 1801 true).1.skipSingle = true ∧
    (true = false →
      (handleKey ⟨KEY_CAM_PIN, .KEY_PRESSED, 1000, 0, false, false⟩ 1801 true).1.state =
        .KEY_LONG_PRESSED) ∧
    (true = true →
      (handleKey ⟨KEY_CAM_PIN, .KEY_PRESSED, 1000, 0, false, false⟩ 1801 true).1.state =
        .KEY_IDLE) ∧
    (handleKey ⟨KEY_CAM_PIN, .KEY_PRESSED, 1000, 0, false, false⟩ 1801 true).1.state ≠
      .KEY_WAIT_SECOND ∧
    (handleKey ⟨KEY_CAM_PIN, .KEY_PRESSED, 1000, 0, false, false⟩ 1801 true).1.lastPress = 0 :=
  longPress_priority ⟨KEY_CAM_PIN, .KEY_PRESSED, 1000, 0, false, false⟩ 1801 true rfl
    (by decide)

/-! ### C5: a long press or a double click excludes the single click -/

theorem flag_outcomes (key : KeyInfo) (now : Nat) :
    ((handleKey_flag key now).2 = [] ∧ (handleKey_flag key now).1.state = key.state) ∨
    ((handleKey_flag key now).2 = [] ∧ key.state = .KEY_IDLE ∧
      (handleKey_flag key now).1.state = .KEY_PRESSED ∧
      (handleKey_flag key now).1.pressStart = now) ∨
    ((handleKey_flag key now).2 = [.doubleClick] ∧ (handleKey_flag key now).1.state = .KEY_IDLE) := by
  by_cases hf : key.flag = true <;> by_cases hs : key.state = .KEY_IDLE <;>
    by_cases hw : key.state = .KEY_WAIT_SECOND ∧ usub now key.lastPress < DOUBLE_CLICK_MS <;>
    simp [handleKey_flag, hf, hs, hw]

theorem long_outcomes (key : KeyInfo) (now : Nat) :
    ((handleKey_long key now).2 = [] ∧ (handleKey_long key now).1 = key ∧
      ¬ (key.state = .KEY_PRESSED ∧ usub now key.pressStart > LONG_PRESS_MS)) ∨
    ((handleKey_long key now).2 = [.longPress] ∧ key.state = .KEY_PRESSED ∧
      (handleKey_long key now).1.state = .KEY_LONG_PRESSED) := by
  by_cases h : key.state = .KEY_PRESSED ∧ usub now key.pressStart > LONG_PRESS_MS
  · right
    rw [handleKey_long, if_pos h]
    exact ⟨rfl, h.1, rfl⟩
  · left
    rw [handleKey_long, if_neg h]
    exact ⟨rfl, rfl, h⟩

theorem release_outcomes (key : KeyInfo) (now : Nat) (pinHigh : Bool) :
    handleKey_release key now pinHigh = key ∨
    (key.state = .KEY_PRESSED ∧ (handleKey_release key now pinHigh).state = .KEY_WAIT_SECOND ∧
      (handleKey_release key now pinHigh).lastPress = now) ∨
    (key.state = .KEY_LONG_PRESSED ∧ (handleKey_release key now pinHigh).state = .KEY_IDLE) := by
  by_cases h : (key.state = .KEY_PRESSED ∨ key.state = .KEY_LONG_PRESSED) ∧ pinHigh = true
  · by_cases h2 : key.state = .KEY_PRESSED
    · right; left
      rw [handleKey_release, if_pos h, if_pos h2]
      exact ⟨h2, rfl, rfl⟩
    · right; right
      rw [handleKey_release, if_pos h, if_neg h2]
      exact ⟨h.1.resolve_left h2, rfl⟩
  · left
    rw [handleKey_release, if_neg h]

theorem timeout_outcomes (key : KeyInfo) (now : Nat) :
    ((handleKey_timeout key now).2 = [] ∧ (handleKey_timeout key now).1 = key) ∨
    (key.state = .KEY_WAIT_SECOND ∧ usub now key.lastPress > DOUBLE_CLICK_MS ∧
      (handleKey_timeout key now).1.state = .KEY_IDLE ∧
      ((handleKey_timeout key now).2 = [] ∨ (handleKey_timeout key now).2 = [.singleClick])) := by
  by_cases h : key.state = .KEY_WAIT_SECOND ∧ usub now key.lastPress > DOUBLE_CLICK_MS
  · right
    rw [handleKey_timeout, if_pos h]
    refine ⟨h.1, h.2, rfl, ?_⟩
    by_cases hk : key.skipSingle = false
    · right; simp [hk]
    · left; simp [hk]
  · left
    rw [handleKey_timeout, if_neg h]
    exact ⟨rfl, rfl⟩

/-- What one evaluation can fire, and the state it then ends in. -/
theorem handleKey_outcomes (key : KeyInfo) (now : Nat) (pinHigh : Bool) :
    (handleKey key now pinHigh).2 = [] ∨
    ((handleKey key now pinHigh).2 = [.singleClick] ∧
      (handleKey key now pinHigh).1.state = .KEY_IDLE) ∨
    ((handleKey key now pinHigh).2 = [.doubleClick] ∧
      (handleKey key now pinHigh).1.state = .KEY_IDLE) ∨
    ((handleKey key now pinHigh).2 = [.longPress] ∧
      ((handleKey key now pinHigh).1.state = .KEY_LONG_PRESSED ∨
        (handleKey key now pinHigh).1.state = .KEY_IDLE)) := by
  simp only [handleKey]
  generalize h1 : handleKey_flag key now = r1
  have f1 := flag_outcomes key now
  rw [h1] at f1
  generalize h2 : handleKey_long r1.1 now = r2
  have f2 := long_outcomes r1.1 now
  rw [h2] at f2
  generalize h3 : handleKey_release r2.1 now pinHigh = k3
  have f3 := release_outcomes r2.1 now pinHigh
  rw [h3] at f3
  generalize h4 : handleKey_timeout k3 now = r4
  have f4 := timeout_outcomes k3 now
  rw [h4] at f4
  have hz : ¬ (DOUBLE_CLICK_MS < usub now now) := by simp [usub_self]
  have hz2 : ¬ (LONG_PRESS_MS < usub now now) := by simp [usub_self]
  clear h1 h2 h3 h4
  rcases f1 with ⟨e1, s1⟩ | ⟨e1, s0, s1, p1⟩ | ⟨e1, s1⟩ <;>
  rcases f2 with ⟨e2, s2, n2⟩ | ⟨e2, s2, s2b⟩ <;>
  rcases f3 with s3 | ⟨s3, s3b, l3⟩ | ⟨s3, s3b⟩ <;>
  rcases f4 with ⟨e4, s4⟩ | ⟨s4, w4, s4b, e4 | e4⟩ <;>
  simp_all

/-- From KEY_LONG_PRESSED nothing fires, and the key stays there or goes idle. -/
theorem handleKey_from_long (key : KeyInfo) (now : Nat) (pinHigh : Bool)
    (hs : key.state = .KEY_LONG_PRESSED) :
    (handleKey key now pinHigh).2 = [] ∧
    ((handleKey key now pinHigh).1.state = .KEY_LONG_PRESSED ∨
      (handleKey key now pinHigh).1.state = .KEY_IDLE) := by
  obtain ⟨pin, st, ps, lp, fl, sk⟩ := key
  simp only at hs
  subst hs
  cases fl <;> cases pinHigh <;>
    simp [handleKey, handleKey_flag, handleKey_long, handleKey_release, handleKey_timeout]

theorem withinCycle_cons (key : KeyInfo) (t t2 : Tick) (ts : List Tick) :
    WithinCycle key (t :: t2 :: ts) ↔
      (tick key t).1.state ≠ .KEY_IDLE ∧ WithinCycle (tick key t).1 (t2 :: ts) := by
  simp [WithinCycle, runStates, List.dropLast]

/-- Inside one press cycle: from KEY_LONG_PRESSED nothing fires any more, and
a long press or double click anywhere excludes a single click. -/
theorem cycle_aux (seg : List Tick) : ∀ key : KeyInfo, WithinCycle key seg →
    (key.state = .KEY_LONG_PRESSED → ∀ e, countEvent e (runKey key seg).2 = 0) ∧
    (0 < countEvent .longPress (runKey key seg).2 ∨
        0 < countEvent .doubleClick (runKey key seg).2 →
      countEvent .singleClick (runKey key seg).2 = 0) := by
  induction seg with
  | nil => intro key _; simp [runKey, countEvent]
  | cons t ts ih =>
    intro key hc
    have ho := handleKey_outcomes { key with flag := key.flag || t.isr } t.now t.pinHigh
    have hl := handleKey_from_long { key with flag := key.flag || t.isr } t.now t.pinHigh
    change (tick key t).2 = [] ∨ ((tick key t).2 = [.singleClick] ∧ (tick key t).1.state = .KEY_IDLE) ∨
      ((tick key t).2 = [.doubleClick] ∧ (tick key t).1.state = .KEY_IDLE) ∨
      ((tick key t).2 = [.longPress] ∧ ((tick key t).1.state = .KEY_LONG_PRESSED ∨
        (tick key t).1.state = .KEY_IDLE)) at ho
    change key.state = .KEY_LONG_PRESSED → (tick key t).2 = [] ∧
      ((tick key t).1.state = .KEY_LONG_PRESSED ∨ (tick key t).1.state = .KEY_IDLE) at hl
    cases ts with
    | nil =>
      constructor
      · intro hs e
        simp [runKey, countEvent_cons, (hl hs).1, countEvent]
      · intro hf
        rcases ho with h | ⟨h, _⟩ | ⟨h, _⟩ | ⟨h, _⟩ <;>
          simp [runKey, countEvent_cons, h, countEvent] at hf ⊢
    | cons t2 ts2 =>
      obtain ⟨hne, hc2⟩ := (withinCycle_cons key t t2 ts2).mp hc
      obtain ⟨ih1, ih2⟩ := ih (tick key t).1 hc2
      have hlog : (runKey key (t :: t2 :: ts2)).2 =
          (tick key t).2 :: (runKey (tick key t).1 (t2 :: ts2)).2 := rfl
      rw [hlog]
      constructor
      · intro hs e
        obtain ⟨h0, h1⟩ := hl hs
        have hs2 : (tick key t).1.state = .KEY_LONG_PRESSED := h1.resolve_right hne
        rw [countEvent_cons, h0, ih1 hs2 e]
        simp
      · intro hf
        rcases ho with h | ⟨_, hi⟩ | ⟨_, hi⟩ | ⟨h, hst⟩
        · rw [countEvent_cons, countEvent_cons, h] at hf
          rw [countEvent_cons, h]
          simp only [List.count_nil, Nat.zero_add] at hf ⊢
          exact ih2 hf
        · exact absurd hi hne
        · exact absurd hi hne
        · have hs2 : (tick key t).1.state = .KEY_LONG_PRESSED := hst.resolve_right hne
          rw [countEvent_cons, h, ih1 hs2 .singleClick]
          simp

/-- C5: in every run from the initial key record, within one press cycle (a
segment that starts in KEY_IDLE and in which the key is back in KEY_IDLE at
the earliest after its last tick), if a long press or a double click fired
then no single click fired. -/
theorem cycle_exclusive (pin : Int) (pre seg : List Tick)
    (_hidle : (runKey (keyArrayInit pin) pre).1.state = .KEY_IDLE)
    (hcycle : WithinCycle (runKey (keyArrayInit pin) pre).1 seg)
    (hfired : 0 < countEvent .longPress (runKey (runKey (keyArrayInit pin) pre).1 seg).2 ∨
      0 < countEvent .doubleClick (runKey (runKey (keyArrayInit pin) pre).1 seg).2) :
    countEvent .singleClick (runKey (runKey (keyArrayInit pin) pre).1 seg).2 = 0 :=
  (cycle_aux seg (runKey (keyArrayInit pin) pre).1 hcycle).2 hfired

/-- C5 on the camera key: after one complete single click, a cycle with a
press at 3000, the long press at 3801 and the release at 3900. -/
theorem cycle_exclusive_witness :
    countEvent .singleClick
      (runKey (runKey (keyArrayInit KEY_CAM_PIN)
          [⟨true, 1000, false⟩, ⟨false, 1100, true⟩, ⟨false, 1501, true⟩]).1
        [⟨true, 3000, false⟩, ⟨false, 3801, false⟩, ⟨false, 3900, true⟩]).2 = 0 :=
  cycle_exclusive KEY_CAM_PIN
    [⟨true, 1000, false⟩, ⟨false, 1100, true⟩, ⟨false, 1501, true⟩]
    [⟨true, 3000, false⟩, ⟨false, 3801, false⟩, ⟨false, 3900, true⟩]
    (by decide) (by unfold WithinCycle; decide) (Or.inl (by decide))

/-! ### C6, C7: the parameter keys -/

theorem sensorConfig_params (s : Sys) :
    (CameraTask_InitSensorConfig s).cameraEffectMode = s.cameraEffectMode ∧
    (CameraTask_InitSensorConfig s).cameraParamLevel = s.cameraParamLevel ∧
    (CameraTask_InitSensorConfig s).keyTopState = s.keyTopState ∧
    (CameraTask_InitSensorConfig s).keyDownState = s.keyDownState := by
  unfold CameraTask_InitSensorConfig
  split_ifs <;> simp [Sys.log]

theorem topKey_effect (s : Sys) (hk : s.keyTopState = 1) :
    (DisplayTask_topKey s).cameraEffectMode =
      if s.cameraEffectMode > 5 then 0 else s.cameraEffectMode + 1 := by
  unfold DisplayTask_topKey
  rw [if_pos hk]
  simp only [(sensorConfig_params _).1]
  split_ifs <;> rfl

theorem downKey_level (s : Sys) (hk : s.keyDownState = 1) :
    (DisplayTask_downKey s).cameraParamLevel =
      if s.cameraParamLevel > 1 then -2 else s.cameraParamLevel + 1 := by
  unfold DisplayTask_downKey
  rw [if_pos hk]
  simp only [(sensorConfig_params _).2.1]
  split_ifs <;> rfl

theorem pressTop_effect (s : Sys) :
    (pressTop s).cameraEffectMode =
      if s.cameraEffectMode > 5 then 0 else s.cameraEffectMode + 1 :=
  topKey_effect { s with keyTopState := 1 } rfl

theorem pressDown_level (s : Sys) :
    (pressDown s).cameraParamLevel =
      if s.cameraParamLevel > 1 then -2 else s.cameraParamLevel + 1 :=
  downKey_level { s with keyDownState := 1 } rfl

/-- C6 as stated fails: in preview mode with the top key pressed, effect
mode 5 is stepped to 6, not to 0. -/
theorem topKey_five_goes_to_six :
    (DisplayTask_topKey { Sys.boot with cameraEffectMode := 5, keyTopState := 1 }).cameraEffectMode
      = 6 := by
  rw [topKey_effect _ rfl]
  decide

/-- C6, amended: the top-key step maps effect mode `e` to `e + 1` for every
`e` in 0..5 and maps 6 to 0, so that from 0 the effect mode visits
0,1,2,3,4,5,6 and then 0 again. -/
theorem topKey_cycle (s : Sys) (hk : s.keyTopState = 1) :
    (0 ≤ s.cameraEffectMode ∧ s.cameraEffectMode ≤ 5 →
      (DisplayTask_topKey s).cameraEffectMode = s.cameraEffectMode + 1) ∧
    (s.cameraEffectMode = 6 → (DisplayTask_topKey s).cameraEffectMode = 0) ∧
    (s.cameraEffectMode = 0 →
      (List.range 8).map (fun n => (pressTop^[n] s).cameraEffectMode) =
        [0, 1, 2, 3, 4, 5, 6, 0]) := by
  refine ⟨?_, ?_, ?_⟩
  · intro h
    rw [topKey_effect s hk, if_neg (by omega)]
  · intro h
    rw [topKey_effect s hk, if_pos (by omega)]
  · intro h0
    have e1 : (pressTop s).cameraEffectMode = 1 := by rw [pressTop_effect, h0]; rfl
    have e2 : (pressTop (pressTop s)).cameraEffectMode = 2 := by rw [pressTop_effect, e1]; rfl
    have e3 : (pressTop (pressTop (pressTop s))).cameraEffectMode = 3 := by
      rw [pressTop_effect, e2]; rfl
    have e4 : (pressTop (pressTop (pressTop (pressTop s)))).cameraEffectMode = 4 := by
      rw [pressTop_effect, e3]; rfl
    have e5 : (pressTop (pressTop (pressTop (pressTop (pressTop s))))).cameraEffectMode = 5 := by
      rw [pressTop_effect, e4]; rfl
    have e6 : (pressTop (pressTop (pressTop (pressTop (pressTop (pressTop s)))))).cameraEffectMode
        = 6 := by
      rw [pressTop_effect, e5]; rfl
    have e7 : (pressTop (pressTop (pressTop (pressTop (pressTop (pressTop
        (pressTop s))))))).cameraEffectMode = 0 := by
      rw [pressTop_effect, e6]; rfl
    simp [List.range_succ, Function.iterate_succ_apply', h0, e1, e2, e3, e4, e5, e6, e7]

/-- The amended C6 from the boot state with the top key pressed. -/
theorem topKey_cycle_witness :
    (0 ≤ ({ Sys.boot with keyTopState := 1 } : Sys).cameraEffectMode ∧
        ({ Sys.boot with keyTopState := 1 } : Sys).cameraEffectMode ≤ 5 →
      (DisplayTask_topKey { Sys.boot with keyTopState := 1 }).cameraEffectMode =
        ({ Sys.boot with keyTopState := 1 } : Sys).cameraEffectMode + 1) ∧
    (({ Sys.boot with keyTopState := 1 } : Sys).cameraEffectMode = 6 →
      (DisplayTask_topKey { Sys.boot with keyTopState := 1 }).cameraEffectMode = 0) ∧
    (({ Sys.boot with keyTopState := 1 } : Sys).cameraEffectMode = 0 →
      (List.range 8).map
          (fun n => (pressTop^[n] { Sys.boot with keyTopState := 1 }).cameraEffectMode) =
        [0, 1, 2, 3, 4, 5, 6, 0]) :=
  topKey_cycle { Sys.boot with keyTopState := 1 } rfl

/-- C7 as stated fails: in preview mode with the down key pressed, level 1
is stepped to 2, not to -2. -/
theorem downKey_one_goes_to_two :
    (DisplayTask_downKey { Sys.boot with cameraParamLevel := 1, keyDownState := 1 }).cameraParamLevel
      = 2 := by
  rw [downKey_level _ rfl]
  decide

/-- C7, amended: the down-key step maps level `l` to `l + 1` for every `l`
in -2..1 and maps 2 to -2, so that from 0 the level visits 0,1,2,-2,-1,0. -/
theorem downKey_cycle (s : Sys) (hk : s.keyDownState = 1) :
    (-2 ≤ s.cameraParamLevel ∧ s.cameraParamLevel ≤ 1 →
      (DisplayTask_downKey s).cameraParamLevel = s.cameraParamLevel + 1) ∧
    (s.cameraParamLevel = 2 → (DisplayTask_downKey s).cameraParamLevel = -2) ∧
    (s.cameraParamLevel = 0 →
      (List.range 6).map (fun n => (pressDown^[n] s).cameraParamLevel) =
        [0, 1, 2, -2, -1, 0]) := by
  refine ⟨?_, ?_, ?_⟩
  · intro h
    rw [downKey_level s hk, if_neg (by omega)]
  · intro h
    rw [downKey_level s hk, if_pos (by omega)]
  · intro h0
    have e1 : (pressDown s).cameraParamLevel = 1 := by rw [pressDown_level, h0]; rfl
    have e2 : (pressDown (pressDown s)).cameraParamLevel = 2 := by
      rw [pressDown_level, e1]; rfl
    have e3 : (pressDown (pressDown (pressDown s))).cameraParamLevel = -2 := by
      rw [pressDown_level, e2]; rfl
    have e4 : (pressDown (pressDown (pressDown (pressDown s)))).cameraParamLevel = -1 := by
      rw [pressDown_level, e3]; rfl
    have e5 : (pressDown (pressDown (pressDown (pressDown (pressDown s))))).cameraParamLevel
        = 0 := by
      rw [pressDown_level, e4]; rfl
    simp [List.range_succ, Function.iterate_succ_apply', h0, e1, e2, e3, e4, e5]

/-- The amended C7 from the boot state with the down key pressed. -/
theorem downKey_cycle_witness :
    (-2 ≤ ({ Sys.boot with keyDownState := 1 } : Sys).cameraParamLevel ∧
        ({ Sys.boot with keyDownState := 1 } : Sys).cameraParamLevel ≤ 1 →
      (DisplayTask_downKey { Sys.boot with keyDownState := 1 }).cameraParamLevel =
        ({ Sys.boot with keyDownState := 1 } : Sys).cameraParamLevel + 1) ∧
    (({ Sys.boot with keyDownState := 1 } : Sys).cameraParamLevel = 2 →
      (DisplayTask_downKey { Sys.boot with keyDownState := 1 }).cameraParamLevel = -2) ∧
    (({ Sys.boot with keyDownState := 1 } : Sys).cameraParamLevel = 0 →
      (List.range 6).map
          (fun n => (pressDown^[n] { Sys.boot with keyDownState := 1 }).cameraParamLevel) =
        [0, 1, 2, -2, -1, 0]) :=
  downKey_cycle { Sys.boot with keyDownState := 1 } rfl

/-! ### C8, C9: the frame hand-off -/

theorem run_snoc (s : Handoff) (steps : List HandoffStep) (a : HandoffStep) :
    s.run (steps ++ [a]) = (s.run steps).step a := by
  simp [Handoff.run, List.foldl_append]

/-- The queue keeps the length it was created with and never holds more. -/
theorem queue_invariant (steps : List HandoffStep) :
    (Handoff.init.run steps).cameraFrameQueue.uxQueueLength = 1 ∧
    (Handoff.init.run steps).cameraFrameQueue.items.length ≤ 1 := by
  induction steps using List.reverseRecOn with
  | nil => simp [Handoff.run, Handoff.init, xQueueCreate]
  | append_singleton steps a ih =>
    rw [run_snoc]
    generalize Handoff.init.run steps = s at ih
    obtain ⟨⟨cap, items⟩, acq, rel⟩ := s
    simp only at ih
    obtain ⟨hcap, hlen⟩ := ih
    subst hcap
    cases a with
    | produce fbOk =>
      cases fbOk
      · simpa [Handoff.step, CameraTask_iteration] using hlen
      · match items, hlen with
        | [], _ => simp [Handoff.step, CameraTask_iteration, xQueueSend]
        | [f], _ => simp [Handoff.step, CameraTask_iteration, xQueueSend]
    | drain =>
      match items, hlen with
      | [], _ => simp [Handoff.step, DisplayTask_ShowCamera, xQueueReceive]
      | [f], _ => simp [Handoff.step, DisplayTask_ShowCamera, xQueueReceive]

/-- C8: after every finite sequence of producer iterations and consumer
drains from the empty queue of length 1, the queue holds at most one frame;
and whenever it holds a frame, a publish attempt leaves the queued frame where
it is and returns the new frame to the driver. -/
theorem handoff_queue_bound (steps : List HandoffStep) :
    (Handoff.init.run steps).cameraFrameQueue.items.length ≤ 1 ∧
    ∀ f, (Handoff.init.run steps).cameraFrameQueue.items = [f] →
      (xQueueSend (Handoff.init.run steps).cameraFrameQueue
          (Handoff.init.run steps).acquired).2 = false ∧
      (CameraTask_iteration true (Handoff.init.run steps)).cameraFrameQueue.items = [f] ∧
      (CameraTask_iteration true (Handoff.init.run steps)).released =
        (Handoff.init.run steps).released ++ [(Handoff.init.run steps).acquired] := by
  obtain ⟨hcap, hlen⟩ := queue_invariant steps
  refine ⟨hlen, ?_⟩
  intro f hf
  generalize Handoff.init.run steps = s at hcap hlen hf
  obtain ⟨⟨cap, items⟩, acq, rel⟩ := s
  simp only at hcap hf
  subst hcap hf
  simp [CameraTask_iteration, xQueueSend]

/-- C8 on a concrete interleaving: after two publishes and a drain followed
by a publish, frame 2 is queued; the next publish returns frame 3. -/
theorem handoff_queue_bound_witness :
    (Handoff.init.run [.produce true, .produce true, .drain, .produce true]).cameraFrameQueue.items
      = [2] ∧
    (CameraTask_iteration true
      (Handoff.init.run [.produce true, .produce true, .drain, .produce true])).cameraFrameQueue.items
      = [2] ∧
    (CameraTask_iteration true
      (Handoff.init.run [.produce true, .produce true, .drain, .produce true])).released
      = (Handoff.init.run [.produce true, .produce true, .drain, .produce true]).released ++
        [(Handoff.init.run [.produce true, .produce true, .drain, .produce true]).acquired] :=
  ⟨by decide,
   ((handoff_queue_bound [.produce true, .produce true, .drain, .produce true]).2 2
      (by decide)).2⟩

/-- Every frame handed out is either released or queued, exactly once. -/
theorem ownership_invariant (steps : List HandoffStep) :
    ((Handoff.init.run steps).released ++
        (Handoff.init.run steps).cameraFrameQueue.items).Nodup ∧
    (∀ f ∈ (Handoff.init.run steps).released ++
        (Handoff.init.run steps).cameraFrameQueue.items, f < (Handoff.init.run steps).acquired) ∧
    (Handoff.init.run steps).acquired =
      (Handoff.init.run steps).released.length +
        (Handoff.init.run steps).cameraFrameQueue.items.length := by
  induction steps using List.reverseRecOn with
  | nil => simp [Handoff.run, Handoff.init, xQueueCreate]
  | append_singleton steps a ih =>
    rw [run_snoc]
    generalize Handoff.init.run steps = s at ih
    obtain ⟨⟨cap, items⟩, acq, rel⟩ := s
    simp only at ih
    obtain ⟨hnd, hlt, hcount⟩ := ih
    have hfresh : acq ∉ rel ++ items := fun h => Nat.lt_irrefl _ (hlt acq h)
    cases a with
    | produce fbOk =>
      cases fbOk
      · exact ⟨hnd, hlt, hcount⟩
      · by_cases hroom : items.length < cap
        · simp only [Handoff.step, CameraTask_iteration, xQueueSend, hroom]
          simp only [if_true, ne_eq, not_true_eq_false, if_false, Bool.true_eq_false]
          refine ⟨?_, ?_, ?_⟩
          · rw [← List.append_assoc]
            exact List.Nodup.append hnd (List.nodup_singleton _) (by simpa using hfresh)
          · intro f hf
            rw [← List.append_assoc, List.mem_append, List.mem_singleton] at hf
            rcases hf with hf | hf
            · exact Nat.lt_succ_of_lt (hlt f hf)
            · subst hf
              exact Nat.lt_succ_self _
          · simp only [List.length_append, List.length_singleton]
            omega
        · simp only [Handoff.step, CameraTask_iteration, xQueueSend, hroom]
          simp only [if_false, ne_eq, Bool.false_eq_true, not_false_eq_true, if_true]
          have hperm : List.Perm (rel ++ [acq] ++ items) (acq :: (rel ++ items)) := by
            rw [List.append_assoc]
            exact (List.perm_middle).trans (List.Perm.refl _)
          refine ⟨?_, ?_, ?_⟩
          · exact hperm.nodup_iff.mpr (List.nodup_cons.mpr ⟨hfresh, hnd⟩)
          · intro f hf
            have hf2 := hperm.subset hf
            rcases List.mem_cons.mp hf2 with hf3 | hf3
            · subst hf3
              exact Nat.lt_succ_self _
            · exact Nat.lt_succ_of_lt (hlt f hf3)
          · simp only [Bool.true_eq_false, if_false, List.length_append, List.length_singleton]
            omega
    | drain =>
      cases items with
      | nil => exact ⟨hnd, hlt, hcount⟩
      | cons f rest =>
        simp only [Handoff.step, DisplayTask_ShowCamera, xQueueReceive]
        have hsame : rel ++ [f] ++ rest = rel ++ f :: rest := by simp
        refine ⟨by rw [hsame]; exact hnd, by rw [hsame]; exact hlt, ?_⟩
        have hsame : (rel ++ [f]).length + rest.length = rel.length + (f :: rest).length := by
          simp [Nat.add_assoc, Nat.add_comm 1]
        rw [hsame]
        exact hcount

/-- C9: after every finite interleaving of `CameraTask` iterations and
`DisplayTask_ShowCamera` drains from the empty queue, no frame has been
released twice, no queued frame has been released, and the number of frames
acquired is the number released plus the number queued; an iteration whose
acquisition fails changes nothing. -/
theorem handoff_ownership (steps : List HandoffStep) :
    (Handoff.init.run steps).released.Nodup ∧
    (∀ f ∈ (Handoff.init.run steps).cameraFrameQueue.items,
      f ∉ (Handoff.init.run steps).released) ∧
    (Handoff.init.run steps).acquired =
      (Handoff.init.run steps).released.length +
        (Handoff.init.run steps).cameraFrameQueue.items.length ∧
    CameraTask_iteration false (Handoff.init.run steps) = Handoff.init.run steps := by
  obtain ⟨hnd, _, hcount⟩ := ownership_invariant steps
  refine ⟨(List.nodup_append.mp hnd).1, ?_, hcount, rfl⟩
  intro f hq hr
  exact (List.nodup_append.mp hnd).2.2 hr hq

/-! ### C10: the save sequence restores the preview -/

theorem scan_none (sd : SdCard) (fuel : Nat) : ∀ index,
    TfCard_GetNextPhotoIndex_loop sd fuel index = none →
      ∀ i, i < fuel → SD_exists sd (index + i) = true := by
  induction fuel with
  | zero => intro index _ i hi; omega
  | succ fuel ih =>
    intro index h i hi
    unfold TfCard_GetNextPhotoIndex_loop at h
    by_cases he : SD_exists sd index = false
    · simp [he] at h
    · rw [if_neg he] at h
      cases i with
      | zero => simpa using he
      | succ i =>
        have := ih (index + 1) h i (by omega)
        rw [show index + (i + 1) = index + 1 + i by omega]
        exact this

/-- The index scan returns: a card with `n` files cannot hold all of
`/photo_1.jpg` ... `/photo_(n+1).jpg`. -/
theorem scan_returns (sd : SdCard) : ∃ n, TfCard_GetNextPhotoIndex sd = some n := by
  cases h : TfCard_GetNextPhotoIndex sd with
  | some n => exact ⟨n, rfl⟩
  | none =>
    exfalso
    have hall := scan_none sd (sd.photos.length + 1) 1 h
    have hsub : (List.range (sd.photos.length + 1)).map (fun i => 1 + i) ⊆
        sd.photos.map Prod.fst := by
      intro x hx
      obtain ⟨i, hi, rfl⟩ := List.mem_map.mp hx
      have he := hall i (List.mem_range.mp hi)
      simp only [SD_exists, List.any_eq_true, beq_iff_eq] at he
      obtain ⟨f, hf, hfi⟩ := he
      exact List.mem_map.mpr ⟨f, hf, hfi⟩
    have hnd : ((List.range (sd.photos.length + 1)).map (fun i => 1 + i)).Nodup :=
      (List.nodup_range _).map (fun a b hab => by simpa using hab)
    have hle := (hnd.subperm hsub).length_le
    simp at hle

/-- The call of `TfCard_WritePhoto` returns, and touches only the card and the trace. -/
theorem writePhoto_returns (openOk : Bool) (data : List Nat) (size : Nat) (s : Sys) :
    ∃ s2, TfCard_WritePhoto openOk data size s = some s2 ∧
      s2.cameraEffectMode = s.cameraEffectMode ∧ s2.cameraParamLevel = s.cameraParamLevel ∧
      s2.nextTask = s.nextTask ∧ s2.cameraTasks = s.cameraTasks ∧
      s2.cameraTaskHandle = s.cameraTaskHandle := by
  obtain ⟨n, hn⟩ := scan_returns s.sd
  cases openOk <;> simp [TfCard_WritePhoto, hn, Sys.log]

/-- C10: when both `esp_camera_init` calls return ESP_OK and a frame is
acquired, `DisplayTask_SavePhoto` runs to its end and leaves `cameraConfig`
equal to the Preview profile (RGB565, QVGA, two buffers, quality 20) with the
driver initialised from it, `cameraEffectMode` and `cameraParamLevel` as they
were before the call and as last written to the sensor, `cameraTaskHandle`
set to a task created by this call, and the saving popup hidden. -/
theorem savePhoto_restores_preview (env : SaveEnv) (s : Sys) (fb : Frame)
    (hphoto : env.photoInitOk = true) (hpreview : env.previewInitOk = true)
    (hframe : env.frame = some fb) :
    (DisplayTask_SavePhoto env s).2 = .completed ∧
    (DisplayTask_SavePhoto env s).1.cameraConfig = previewProfile ∧
    (DisplayTask_SavePhoto env s).1.cameraConfig.pixel_format = .PIXFORMAT_RGB565 ∧
    (DisplayTask_SavePhoto env s).1.cameraConfig.frame_size = .FRAMESIZE_QVGA ∧
    (DisplayTask_SavePhoto env s).1.cameraConfig.fb_count = 2 ∧
    (DisplayTask_SavePhoto env s).1.cameraConfig.jpeg_quality = 20 ∧
    (DisplayTask_SavePhoto env s).1.driver = some previewProfile ∧
    (DisplayTask_SavePhoto env s).1.cameraEffectMode = s.cameraEffectMode ∧
    (DisplayTask_SavePhoto env s).1.cameraParamLevel = s.cameraParamLevel ∧
    (DisplayTask_SavePhoto env s).1.sensor.special_effect = s.cameraEffectMode ∧
    (DisplayTask_SavePhoto env s).1.sensor.contrast = s.cameraParamLevel ∧
    (DisplayTask_SavePhoto env s).1.sensor.brightness = s.cameraParamLevel ∧
    (DisplayTask_SavePhoto env s).1.sensor.saturation = s.cameraParamLevel ∧
    (DisplayTask_SavePhoto env s).1.cameraTaskHandle = some s.nextTask ∧
    s.nextTask ∈ (DisplayTask_SavePhoto env s).1.cameraTasks ∧
    (DisplayTask_SavePhoto env s).1.trace.getLast? = some (.xTaskCreate s.nextTask) ∧
    (DisplayTask_SavePhoto env s).1.isSavingPopupVisible = false := by
  obtain ⟨n, hn⟩ := scan_returns s.sd
  cases hh : s.cameraTaskHandle <;> cases ho : env.openOk <;>
    simp [DisplayTask_SavePhoto, DisplayTask_SavePhoto_toPhotoMode,
      DisplayTask_SavePhoto_toPreviewMode, TfCard_WritePhoto, xTaskCreate_CameraTask,
      KeyTask_SetLED, CameraTask_InitSensorConfig, esp_camera_sensor_get, esp_camera_init,
      CameraTask_InitPreviewConfig, CameraTask_InitPhotoConfig, esp_camera_deinit, vTaskDelete,
      Sys.log, previewProfile, CONFIG_MODEL, hphoto, hpreview, hframe, hn, hh, ho]

/-- C10 at the boot state with effect mode 3 and level -1, every driver call
succeeding: the producer is task 1 afterwards. -/
theorem savePhoto_restores_preview_witness :
    (DisplayTask_SavePhoto SaveEnv.allOk
      { Sys.boot with cameraEffectMode := 3, cameraParamLevel := -1 }).2 = .completed ∧
    (DisplayTask_SavePhoto SaveEnv.allOk
      { Sys.boot with cameraEffectMode := 3, cameraParamLevel := -1 }).1.cameraConfig =
        previewProfile ∧
    (DisplayTask_SavePhoto SaveEnv.allOk
      { Sys.boot with cameraEffectMode := 3, cameraParamLevel := -1 }).1.sensor.special_effect
        = 3 ∧
    (DisplayTask_SavePhoto SaveEnv.allOk
      { Sys.boot with cameraEffectMode := 3, cameraParamLevel := -1 }).1.sensor.brightness
        = -1 ∧
    (DisplayTask_SavePhoto SaveEnv.allOk
      { Sys.boot with cameraEffectMode := 3, cameraParamLevel := -1 }).1.cameraTaskHandle
        = some 1 ∧
    (DisplayTask_SavePhoto SaveEnv.allOk
      { Sys.boot with cameraEffectMode := 3, cameraParamLevel := -1 }).1.isSavingPopupVisible
        = false :=
  have h := savePhoto_restores_preview SaveEnv.allOk
    { Sys.boot with cameraEffectMode := 3, cameraParamLevel := -1 }
    { buf := [255, 216, 255], len := 3, width := 1280, height := 1024 } rfl rfl rfl
  ⟨h.1, h.2.1, h.2.2.2.2.2.2.2.2.2.1, h.2.2.2.2.2.2.2.2.2.2.2.1,
    h.2.2.2.2.2.2.2.2.2.2.2.2.2.1, h.2.2.2.2.2.2.2.2.2.2.2.2.2.2.2.2⟩

/-! ### C11-C16: traces of the save sequence -/

theorem toPhotoMode_trace (env : SaveEnv) (s : Sys) :
    (DisplayTask_SavePhoto_toPhotoMode env s).trace =
      s.trace ++ (.popup true :: (stopActions s.cameraTaskHandle ++
        (.esp_camera_deinit :: .esp_camera_init photoProfile env.photoInitOk ::
          (if env.photoInitOk then sensorCalls s.cameraParamLevel s.cameraEffectMode
           else [])))) ∧
    (DisplayTask_SavePhoto_toPhotoMode env s).sd = s.sd ∧
    (DisplayTask_SavePhoto_toPhotoMode env s).cameraTaskHandle = none ∧
    (DisplayTask_SavePhoto_toPhotoMode env s).isSavingPopupVisible = true ∧
    (DisplayTask_SavePhoto_toPhotoMode env s).cameraConfig = photoProfile ∧
    (DisplayTask_SavePhoto_toPhotoMode env s).ledHigh = s.ledHigh ∧
    esp_camera_sensor_get (DisplayTask_SavePhoto_toPhotoMode env s) = env.photoInitOk := by
  cases h : s.cameraTaskHandle <;> cases ho : env.photoInitOk <;>
    simp [DisplayTask_SavePhoto_toPhotoMode, CameraTask_InitSensorConfig, esp_camera_sensor_get,
      esp_camera_init, CameraTask_InitPhotoConfig, esp_camera_deinit, vTaskDelete, Sys.log, h,
      ho, photoProfile, sensorCalls, stopActions, CONFIG_MODEL]

/-- The save sequence whose photo-mode init fails: the sensor configuration
of line 67 dereferences the `NULL` sensor pointer, and the state is the one
left by the first part. -/
theorem savePhoto_initFailed (env : SaveEnv) (s : Sys) (hphoto : env.photoInitOk = false) :
    DisplayTask_SavePhoto env s =
      (DisplayTask_SavePhoto_toPhotoMode env s, .nullSensor) := by
  have hg := (toPhotoMode_trace env s).2.2.2.2.2.2
  rw [hphoto] at hg
  unfold DisplayTask_SavePhoto
  dsimp only
  rw [if_pos hg]

/-- The save sequence that gets no frame: it stops at the access to the frame. -/
theorem savePhoto_nullFrame (env : SaveEnv) (s : Sys) (hphoto : env.photoInitOk = true)
    (hframe : env.frame = none) :
    DisplayTask_SavePhoto env s =
      ((DisplayTask_SavePhoto_toPhotoMode env s).log (.esp_camera_fb_get none),
        .nullFrame) := by
  have hg := (toPhotoMode_trace env s).2.2.2.2.2.2
  rw [hphoto] at hg
  simp [DisplayTask_SavePhoto, hphoto, hframe, hg]

/-- The save sequence that gets a frame and whose preview-mode init
succeeds: exit, trace, card and the state fields the last part sets, with `n`
the index found on the card. -/
theorem savePhoto_gotFrame (env : SaveEnv) (s : Sys) (fb : Frame) (n : Nat)
    (hphoto : env.photoInitOk = true) (hpreview : env.previewInitOk = true)
    (hframe : env.frame = some fb) (hn : TfCard_GetNextPhotoIndex s.sd = some n) :
    (DisplayTask_SavePhoto env s).2 = .completed ∧
    (DisplayTask_SavePhoto env s).1.trace =
      s.trace ++ (.popup true :: (stopActions s.cameraTaskHandle ++
        (.esp_camera_deinit :: .esp_camera_init photoProfile true ::
          (sensorCalls s.cameraParamLevel s.cameraEffectMode ++
            (.esp_camera_fb_get (some fb) :: .TfCard_WritePhoto fb.buf fb.len ::
              ((if env.openOk then [.fileWrite n (fb.buf.take fb.len)] else []) ++
                (.esp_camera_fb_return fb :: .esp_camera_deinit ::
                  .esp_camera_init previewProfile true ::
                    (sensorCalls s.cameraParamLevel s.cameraEffectMode ++
                      [.ledWrite true, .popup false, .xTaskCreate s.nextTask])))))))) ∧
    (DisplayTask_SavePhoto env s).1.sd =
      (if env.openOk then { photos := s.sd.photos ++ [(n, fb.buf.take fb.len)] } else s.sd) ∧
    (DisplayTask_SavePhoto env s).1.cameraConfig = previewProfile ∧
    (DisplayTask_SavePhoto env s).1.driver = some previewProfile ∧
    (DisplayTask_SavePhoto env s).1.cameraTaskHandle = some s.nextTask ∧
    s.nextTask ∈ (DisplayTask_SavePhoto env s).1.cameraTasks ∧
    (DisplayTask_SavePhoto env s).1.isSavingPopupVisible = false ∧
    (DisplayTask_SavePhoto env s).1.ledHigh = true := by
  cases hh : s.cameraTaskHandle <;> cases ho : env.openOk <;>
    simp [DisplayTask_SavePhoto, DisplayTask_SavePhoto_toPhotoMode,
      DisplayTask_SavePhoto_toPreviewMode, TfCard_WritePhoto, xTaskCreate_CameraTask,
      KeyTask_SetLED, CameraTask_InitSensorConfig, esp_camera_sensor_get, esp_camera_init,
      CameraTask_InitPreviewConfig, CameraTask_InitPhotoConfig, esp_camera_deinit, vTaskDelete,
      Sys.log, previewProfile, photoProfile, sensorCalls, stopActions, CONFIG_MODEL,
      hphoto, hpreview, hframe, hn, hh, ho]

/-- The save sequence that gets a frame and whose preview-mode init fails:
the sensor configuration of line 80 dereferences the `NULL` sensor pointer;
the LED write, the popup reset and the task creation are not reached. -/
theorem savePhoto_previewFailed (env : SaveEnv) (s : Sys) (fb : Frame) (n : Nat)
    (hphoto : env.photoInitOk = true) (hpreview : env.previewInitOk = false)
    (hframe : env.frame = some fb) (hn : TfCard_GetNextPhotoIndex s.sd = some n) :
    (DisplayTask_SavePhoto env s).2 = .nullSensor ∧
    (DisplayTask_SavePhoto env s).1.trace =
      s.trace ++ (.popup true :: (stopActions s.cameraTaskHandle ++
        (.esp_camera_deinit :: .esp_camera_init photoProfile true ::
          (sensorCalls s.cameraParamLevel s.cameraEffectMode ++
            (.esp_camera_fb_get (some fb) :: .TfCard_WritePhoto fb.buf fb.len ::
              ((if env.openOk then [.fileWrite n (fb.buf.take fb.len)] else []) ++
                [.esp_camera_fb_return fb, .esp_camera_deinit,
                 .esp_camera_init previewProfile false])))))) ∧
    (DisplayTask_SavePhoto env s).1.sd =
      (if env.openOk then { photos := s.sd.photos ++ [(n, fb.buf.take fb.len)] } else s.sd) ∧
    (DisplayTask_SavePhoto env s).1.cameraTaskHandle = none ∧
    (DisplayTask_SavePhoto env s).1.isSavingPopupVisible = true ∧
    (DisplayTask_SavePhoto env s).1.sensorFault = true := by
  cases hh : s.cameraTaskHandle <;> cases ho : env.openOk <;>
    simp [DisplayTask_SavePhoto, DisplayTask_SavePhoto_toPhotoMode,
      DisplayTask_SavePhoto_toPreviewMode, TfCard_WritePhoto, xTaskCreate_CameraTask,
      KeyTask_SetLED, CameraTask_InitSensorConfig, esp_camera_sensor_get, esp_camera_init,
      CameraTask_InitPreviewConfig, CameraTask_InitPhotoConfig, esp_camera_deinit, vTaskDelete,
      Sys.log, previewProfile, photoProfile, sensorCalls, stopActions, CONFIG_MODEL,
      hphoto, hpreview, hframe, hn, hh, ho]

/-- The `return` of line 70 is taken by no call: a failed photo-mode init is
followed by the sensor configuration of line 67, which does not return. -/
theorem savePhoto_line70_unreached (env : SaveEnv) (s : Sys) :
    (DisplayTask_SavePhoto env s).2 ≠ .photoInitFailed := by
  cases hphoto : env.photoInitOk with
  | false => rw [savePhoto_initFailed env s hphoto]; simp
  | true =>
    cases hframe : env.frame with
    | none => rw [savePhoto_nullFrame env s hphoto hframe]; simp
    | some fb =>
      obtain ⟨n, hn⟩ := scan_returns s.sd
      cases hpreview : env.previewInitOk with
      | true => rw [(savePhoto_gotFrame env s fb n hphoto hpreview hframe hn).1]; simp
      | false => rw [(savePhoto_previewFailed env s fb n hphoto hpreview hframe hn).1]; simp

theorem actionsSince_append (s r : Sys) (t : List Action) (h : r.trace = s.trace ++ t) :
    actionsSince s r = t := by
  simp [actionsSince, h]

/-- C11 as stated fails: in the run from the boot state with every driver
call succeeding, the saving popup is cleared (and the LED switched off) before
the camera task is created, which is the last action. -/
theorem savePhoto_popup_cleared_before_restart :
    (DisplayTask_SavePhoto SaveEnv.allOk Sys.boot).1.trace =
      [.popup true, .vTaskDelete 0, .esp_camera_deinit, .esp_camera_init photoProfile true,
       .set_contrast 0, .set_brightness 0, .set_saturation 0, .set_vflip 0,
       .set_special_effect 0,
       .esp_camera_fb_get (some ⟨[255, 216, 255], 3, 1280, 1024⟩),
       .TfCard_WritePhoto [255, 216, 255] 3, .fileWrite 1 [255, 216, 255],
       .esp_camera_fb_return ⟨[255, 216, 255], 3, 1280, 1024⟩,
       .esp_camera_deinit, .esp_camera_init previewProfile true,
       .set_contrast 0, .set_brightness 0, .set_saturation 0, .set_vflip 0,
       .set_special_effect 0,
       .ledWrite true, .popup false, .xTaskCreate 1] := by
  decide

/-- C11, amended: in every successful run of `DisplayTask_SavePhoto` the
actions are, in this order: saving popup set, camera task deleted (when its
handle is set), camera re-initialised with the Photo profile and the sensor
parameters, one frame acquired, `TfCard_WritePhoto` called (with the file write
when the open succeeds) and the frame returned, camera re-initialised with the
Preview profile and the sensor parameters, flash LED switched off and saving
popup cleared, camera task created. The popup is cleared before the task is
created. -/
theorem savePhoto_order (env : SaveEnv) (s : Sys) (fb : Frame)
    (hphoto : env.photoInitOk = true) (hpreview : env.previewInitOk = true)
    (hframe : env.frame = some fb) :
    ∃ n, TfCard_GetNextPhotoIndex s.sd = some n ∧
      (DisplayTask_SavePhoto env s).2 = .completed ∧
      actionsSince s (DisplayTask_SavePhoto env s).1 =
        .popup true :: (stopActions s.cameraTaskHandle ++
          (.esp_camera_deinit :: .esp_camera_init photoProfile true ::
            (sensorCalls s.cameraParamLevel s.cameraEffectMode ++
              (.esp_camera_fb_get (some fb) :: .TfCard_WritePhoto fb.buf fb.len ::
                ((if env.openOk then [.fileWrite n (fb.buf.take fb.len)] else []) ++
                  (.esp_camera_fb_return fb :: .esp_camera_deinit ::
                    .esp_camera_init previewProfile true ::
                      (sensorCalls s.cameraParamLevel s.cameraEffectMode ++
                        [.ledWrite true, .popup false, .xTaskCreate s.nextTask]))))))) := by
  obtain ⟨n, hn⟩ := scan_returns s.sd
  obtain ⟨hexit, htrace, _⟩ := savePhoto_gotFrame env s fb n hphoto hpreview hframe hn
  exact ⟨n, hn, hexit, actionsSince_append _ _ _ htrace⟩

/-- The amended C11 at the boot state, every driver call succeeding. -/
theorem savePhoto_order_witness :
    ∃ n, TfCard_GetNextPhotoIndex Sys.boot.sd = some n ∧
      (DisplayTask_SavePhoto SaveEnv.allOk Sys.boot).2 = .completed ∧
      actionsSince Sys.boot (DisplayTask_SavePhoto SaveEnv.allOk Sys.boot).1 =
        .popup true :: (stopActions Sys.boot.cameraTaskHandle ++
          (.esp_camera_deinit :: .esp_camera_init photoProfile true ::
            (sensorCalls Sys.boot.cameraParamLevel Sys.boot.cameraEffectMode ++
              (.esp_camera_fb_get (some ⟨[255, 216, 255], 3, 1280, 1024⟩) ::
                .TfCard_WritePhoto (Frame.mk [255, 216, 255] 3 1280 1024).buf
                  (Frame.mk [255, 216, 255] 3 1280 1024).len ::
                ((if SaveEnv.allOk.openOk then
                    [.fileWrite n ((Frame.mk [255, 216, 255] 3 1280 1024).buf.take
                      (Frame.mk [255, 216, 255] 3 1280 1024).len)]
                  else []) ++
                  (.esp_camera_fb_return ⟨[255, 216, 255], 3, 1280, 1024⟩ ::
                    .esp_camera_deinit :: .esp_camera_init previewProfile true ::
                      (sensorCalls Sys.boot.cameraParamLevel Sys.boot.cameraEffectMode ++
                        [.ledWrite true, .popup false,
                         .xTaskCreate Sys.boot.nextTask]))))))) :=
  savePhoto_order SaveEnv.allOk Sys.boot ⟨[255, 216, 255], 3, 1280, 1024⟩ rfl rfl rfl

/-! ### C12: exclusive use of the sensor driver -/

/-- C12: in every execution of `DisplayTask_SavePhoto` that starts with the
camera task running (handle set), whatever the driver answers, scanning the
actions of the call in order finds no driver call (`esp_camera_deinit`,
`esp_camera_init`, sensor setters, `esp_camera_fb_get`, `esp_camera_fb_return`)
before the task has been deleted or after a task has been created again; the
handle is `NULL` as soon as the task is deleted. -/
theorem savePhoto_exclusive (env : SaveEnv) (s : Sys) (h : Nat)
    (hrun : s.cameraTaskHandle = some h) :
    (∃ t, (DisplayTask_SavePhoto env s).1.trace = s.trace ++ t) ∧
    exclusiveFrom true (actionsSince s (DisplayTask_SavePhoto env s).1) = true ∧
    (actionsSince s (DisplayTask_SavePhoto env s).1).take 2 = [.popup true, .vTaskDelete h] ∧
    (DisplayTask_SavePhoto_toPhotoMode env s).cameraTaskHandle = none := by
  obtain ⟨hp, _, hnull, _⟩ := toPhotoMode_trace env s
  rw [hrun] at hp
  cases hphoto : env.photoInitOk with
  | false =>
    rw [hphoto] at hp
    have ht : (DisplayTask_SavePhoto env s).1.trace =
        s.trace ++ (.popup true :: (stopActions (some h) ++
          (.esp_camera_deinit :: .esp_camera_init photoProfile false ::
            (if false = true then sensorCalls s.cameraParamLevel s.cameraEffectMode
             else [])))) := by
      rw [savePhoto_initFailed env s hphoto]
      exact hp
    refine ⟨⟨_, ht⟩, ?_, ?_, hnull⟩ <;> rw [actionsSince_append _ _ _ ht] <;>
      simp [exclusiveFrom, Action.isDriverCall, sensorCalls, stopActions]
  | true =>
    rw [hphoto] at hp
    cases hframe : env.frame with
    | none =>
      have ht : (DisplayTask_SavePhoto env s).1.trace =
          s.trace ++ (.popup true :: (stopActions (some h) ++
            (.esp_camera_deinit :: .esp_camera_init photoProfile true ::
              sensorCalls s.cameraParamLevel s.cameraEffectMode)) ++
            [.esp_camera_fb_get none]) := by
        rw [savePhoto_nullFrame env s hphoto hframe]
        simp [Sys.log, hp]
      refine ⟨⟨_, ht⟩, ?_, ?_, hnull⟩ <;> rw [actionsSince_append _ _ _ ht] <;>
        simp [exclusiveFrom, Action.isDriverCall, sensorCalls, stopActions]
    | some fb =>
      obtain ⟨n, hn⟩ := scan_returns s.sd
      cases hpreview : env.previewInitOk with
      | true =>
        obtain ⟨_, ht, _⟩ := savePhoto_gotFrame env s fb n hphoto hpreview hframe hn
        rw [hrun] at ht
        refine ⟨⟨_, ht⟩, ?_, ?_, hnull⟩ <;> rw [actionsSince_append _ _ _ ht] <;>
          cases env.openOk <;>
          simp [exclusiveFrom, Action.isDriverCall, sensorCalls, stopActions]
      | false =>
        obtain ⟨_, ht, _⟩ := savePhoto_previewFailed env s fb n hphoto hpreview hframe hn
        rw [hrun] at ht
        refine ⟨⟨_, ht⟩, ?_, ?_, hnull⟩ <;> rw [actionsSince_append _ _ _ ht] <;>
          cases env.openOk <;>
          simp [exclusiveFrom, Action.isDriverCall, sensorCalls, stopActions]

/-- C12 at the boot state (camera task 0 running), every driver call
succeeding. -/
theorem savePhoto_exclusive_witness :
    (∃ t, (DisplayTask_SavePhoto SaveEnv.allOk Sys.boot).1.trace = Sys.boot.trace ++ t) ∧
    exclusiveFrom true (actionsSince Sys.boot (DisplayTask_SavePhoto SaveEnv.allOk Sys.boot).1)
      = true ∧
    (actionsSince Sys.boot (DisplayTask_SavePhoto SaveEnv.allOk Sys.boot).1).take 2 =
      [.popup true, .vTaskDelete 0] ∧
    (DisplayTask_SavePhoto_toPhotoMode SaveEnv.allOk Sys.boot).cameraTaskHandle = none :=
  savePhoto_exclusive SaveEnv.allOk Sys.boot 0 rfl

/-! ### C13: the photo-mode init fails -/

/-- C13 fails on the code: from the boot state with a failing photo-mode
`esp_camera_init`, the call does not reach the `return` of line 70. The
sensor configuration of line 67 runs before the result is tested and
dereferences the `NULL` sensor pointer: the last action is the failed init, no
setter is called, and the call does not return. Up to that point no frame is
acquired, `TfCard_WritePhoto` is not called, no task is created,
`cameraTaskHandle` is `NULL` and the saving popup is visible. -/
theorem savePhoto_photoInit_error_faults :
    (DisplayTask_SavePhoto { SaveEnv.allOk with photoInitOk := false } Sys.boot).2 =
      .nullSensor ∧
    (DisplayTask_SavePhoto { SaveEnv.allOk with photoInitOk := false } Sys.boot).2.returns =
      false ∧
    (DisplayTask_SavePhoto { SaveEnv.allOk with photoInitOk := false } Sys.boot).1.sensorFault =
      true ∧
    (DisplayTask_SavePhoto { SaveEnv.allOk with photoInitOk := false } Sys.boot).1.trace =
      [.popup true, .vTaskDelete 0, .esp_camera_deinit, .esp_camera_init photoProfile false] ∧
    (DisplayTask_SavePhoto { SaveEnv.allOk with photoInitOk := false }
      Sys.boot).1.cameraTaskHandle = none ∧
    (DisplayTask_SavePhoto { SaveEnv.allOk with photoInitOk := false }
      Sys.boot).1.isSavingPopupVisible = true := by
  decide

/-! ### C14: the preview-mode init fails -/

/-- C14 fails on the code: from the boot state with a failing preview-mode
`esp_camera_init`, the result of that call is discarded (line 79) and the
sensor configuration of line 80 dereferences the `NULL` sensor pointer. The
call neither returns early nor runs on: the last action is the failed init,
the LED write, the popup reset and the task creation are not reached, so the
camera task is not created again, `cameraTaskHandle` is `NULL` and the saving
popup stays visible. -/
theorem savePhoto_previewInit_error_faults :
    (DisplayTask_SavePhoto { SaveEnv.allOk with previewInitOk := false } Sys.boot).2 =
      .nullSensor ∧
    (DisplayTask_SavePhoto { SaveEnv.allOk with previewInitOk := false } Sys.boot).2.returns =
      false ∧
    (DisplayTask_SavePhoto { SaveEnv.allOk with previewInitOk := false } Sys.boot).1.sensorFault
      = true ∧
    (DisplayTask_SavePhoto { SaveEnv.allOk with previewInitOk := false } Sys.boot).1.trace =
      [.popup true, .vTaskDelete 0, .esp_camera_deinit, .esp_camera_init photoProfile true,
       .set_contrast 0, .set_brightness 0, .set_saturation 0, .set_vflip 0,
       .set_special_effect 0,
       .esp_camera_fb_get (some ⟨[255, 216, 255], 3, 1280, 1024⟩),
       .TfCard_WritePhoto [255, 216, 255] 3, .fileWrite 1 [255, 216, 255],
       .esp_camera_fb_return ⟨[255, 216, 255], 3, 1280, 1024⟩,
       .esp_camera_deinit, .esp_camera_init previewProfile false] ∧
    (DisplayTask_SavePhoto { SaveEnv.allOk with previewInitOk := false }
      Sys.boot).1.cameraTaskHandle = none ∧
    (DisplayTask_SavePhoto { SaveEnv.allOk with previewInitOk := false }
      Sys.boot).1.cameraTasks = [] ∧
    (DisplayTask_SavePhoto { SaveEnv.allOk with previewInitOk := false }
      Sys.boot).1.isSavingPopupVisible = true := by
  decide

/-! ### C15: one frame, one write, one release -/

/-- Every call of the save sequence extends the trace; what it adds starts
with the popup, contains that action once, and never switches the LED on. -/
theorem savePhoto_actions (env : SaveEnv) (s : Sys) :
    ∃ t, (DisplayTask_SavePhoto env s).1.trace = s.trace ++ t ∧
      t.head? = some (.popup true) ∧ t.countP Action.isSaveStart = 1 ∧
      t.any Action.isFlashOn = false := by
  obtain ⟨hp, _⟩ := toPhotoMode_trace env s
  cases hphoto : env.photoInitOk with
  | false =>
    rw [hphoto] at hp
    refine ⟨_, by rw [savePhoto_initFailed env s hphoto]; exact hp, ?_, ?_, ?_⟩ <;>
      cases s.cameraTaskHandle <;>
      simp [sensorCalls, stopActions, Action.isSaveStart, Action.isFlashOn]
  | true =>
    rw [hphoto] at hp
    cases hframe : env.frame with
    | none =>
      have ht : (DisplayTask_SavePhoto env s).1.trace =
          s.trace ++ (.popup true :: (stopActions s.cameraTaskHandle ++
            (.esp_camera_deinit :: .esp_camera_init photoProfile true ::
              sensorCalls s.cameraParamLevel s.cameraEffectMode)) ++
            [.esp_camera_fb_get none]) := by
        rw [savePhoto_nullFrame env s hphoto hframe]
        simp [Sys.log, hp]
      refine ⟨_, ht, ?_, ?_, ?_⟩ <;> cases s.cameraTaskHandle <;>
        simp [sensorCalls, stopActions, Action.isSaveStart, Action.isFlashOn]
    | some fb =>
      obtain ⟨n, hn⟩ := scan_returns s.sd
      cases hpreview : env.previewInitOk with
      | true =>
        obtain ⟨_, ht, _⟩ := savePhoto_gotFrame env s fb n hphoto hpreview hframe hn
        refine ⟨_, ht, ?_, ?_, ?_⟩ <;> cases s.cameraTaskHandle <;> cases env.openOk <;>
          simp [sensorCalls, stopActions, Action.isSaveStart, Action.isFlashOn]
      | false =>
        obtain ⟨_, ht, _⟩ := savePhoto_previewFailed env s fb n hphoto hpreview hframe hn
        refine ⟨_, ht, ?_, ?_, ?_⟩ <;> cases s.cameraTaskHandle <;> cases env.openOk <;>
          simp [sensorCalls, stopActions, Action.isSaveStart, Action.isFlashOn]

/-- A save sequence that ran to its end has switched the LED off. -/
theorem savePhoto_completed_led (env : SaveEnv) (s : Sys)
    (h : (DisplayTask_SavePhoto env s).2 = .completed) :
    (DisplayTask_SavePhoto env s).1.ledHigh = true := by
  cases hphoto : env.photoInitOk with
  | false => rw [savePhoto_initFailed env s hphoto] at h; cases h
  | true =>
    cases hframe : env.frame with
    | none => rw [savePhoto_nullFrame env s hphoto hframe] at h; cases h
    | some fb =>
      obtain ⟨n, hn⟩ := scan_returns s.sd
      cases hpreview : env.previewInitOk with
      | true => exact (savePhoto_gotFrame env s fb n hphoto hpreview hframe hn).2.2.2.2.2.2.2.2
      | false =>
        rw [(savePhoto_previewFailed env s fb n hphoto hpreview hframe hn).1] at h
        cases h

/-- C16: `camSingleClick` is one call of `DisplayTask_SavePhoto` and never
drives the LED pin LOW. `camDoubleClick` and `camLongPress` drive the pin LOW
(LED on), then make one call of `DisplayTask_SavePhoto`, whose first action
follows at once, and, when that call returns, drive the pin HIGH (LED off)
right after its last action; so the LED is off whenever one of the three
callbacks returns. -/
theorem camCallbacks_flash (env : SaveEnv) (s : Sys) :
    camSingleClick env s = DisplayTask_SavePhoto env s ∧
    (actionsSince s (camSingleClick env s).1).countP Action.isSaveStart = 1 ∧
    (actionsSince s (camSingleClick env s).1).any Action.isFlashOn = false ∧
    ((camSingleClick env s).2 = .completed → (camSingleClick env s).1.ledHigh = true) ∧
    (camDoubleClick env s).2 = (DisplayTask_SavePhoto env (KeyTask_SetLED true s)).2 ∧
    actionsSince s (camDoubleClick env s).1 =
      .ledWrite false ::
        (actionsSince (KeyTask_SetLED true s)
            (DisplayTask_SavePhoto env (KeyTask_SetLED true s)).1 ++
          (if (DisplayTask_SavePhoto env (KeyTask_SetLED true s)).2.returns
            then [.ledWrite true] else [])) ∧
    (actionsSince (KeyTask_SetLED true s)
      (DisplayTask_SavePhoto env (KeyTask_SetLED true s)).1).head? = some (.popup true) ∧
    (actionsSince (KeyTask_SetLED true s)
      (DisplayTask_SavePhoto env (KeyTask_SetLED true s)).1).countP Action.isSaveStart = 1 ∧
    (actionsSince (KeyTask_SetLED true s)
      (DisplayTask_SavePhoto env (KeyTask_SetLED true s)).1).any Action.isFlashOn = false ∧
    ((camDoubleClick env s).2.returns = true → (camDoubleClick env s).1.ledHigh = true) ∧
    camLongPress env s = camDoubleClick env s := by
  obtain ⟨t, ht, _, hcount, hflash⟩ := savePhoto_actions env s
  obtain ⟨u, hu, hhead, hucount, huflash⟩ := savePhoto_actions env (KeyTask_SetLED true s)
  have hsince := actionsSince_append _ _ _ hu
  have hu2 : (DisplayTask_SavePhoto env (KeyTask_SetLED true s)).1.trace =
      s.trace ++ (.ledWrite false :: u) := by
    rw [hu]
    simp [KeyTask_SetLED, Sys.log]
  have hoff : ∀ r : Sys, (KeyTask_SetLED false r).trace = r.trace ++ [.ledWrite true] := by
    intro r
    simp [KeyTask_SetLED, Sys.log]
  refine ⟨rfl, ?_, ?_, ?_, ?_, ?_, ?_, ?_, ?_, ?_, rfl⟩
  · show (actionsSince s (DisplayTask_SavePhoto env s).1).countP _ = 1
    rw [actionsSince_append _ _ _ ht]; exact hcount
  · show (actionsSince s (DisplayTask_SavePhoto env s).1).any _ = false
    rw [actionsSince_append _ _ _ ht]; exact hflash
  · exact savePhoto_completed_led env s
  · unfold camDoubleClick
    simp only
    split_ifs <;> rfl
  · rw [hsince]
    unfold camDoubleClick
    simp only
    split_ifs
    · apply actionsSince_append
      show (KeyTask_SetLED false _).trace = _
      rw [hoff, hu2]
      simp
    · apply actionsSince_append
      rw [hu2]
      simp
  · rw [hsince]; exact hhead
  · rw [hsince]; exact hucount
  · rw [hsince]; exact huflash
  · unfold camDoubleClick
    simp only
    split_ifs with hr
    · intro _; simp [KeyTask_SetLED, Sys.log]
    · intro h2; exact absurd h2 hr

/-- C16 at the boot state, every driver call succeeding: the double-click
callback returns with the LED off. -/
theorem camCallbacks_flash_witness :
    (camDoubleClick SaveEnv.allOk Sys.boot).2 = .completed ∧
    (camDoubleClick SaveEnv.allOk Sys.boot).1.ledHigh = true :=
  ⟨by decide, (camCallbacks_flash SaveEnv.allOk Sys.boot).2.2.2.2.2.2.2.2.2.1 (by decide)⟩

/-! ### C17: the middle key -/

/-- C17: for the middle key a single-click event maps `keyMidState` 0 to 1
and 1 to 0, so two single clicks restore a value that is 0 or 1; a
double-click event and a long-press event leave `keyMidState` unchanged. -/
theorem midKey_toggle (s : Sys) :
    (s.keyMidState = 0 → (midKeyEvent .singleClick s).keyMidState = 1) ∧
    (s.keyMidState = 1 → (midKeyEvent .singleClick s).keyMidState = 0) ∧
    (s.keyMidState = 0 ∨ s.keyMidState = 1 →
      (midKeyEvent .singleClick (midKeyEvent .singleClick s)).keyMidState = s.keyMidState) ∧
    (midKeyEvent .doubleClick s).keyMidState = s.keyMidState ∧
    (midKeyEvent .longPress s).keyMidState = s.keyMidState := by
  refine ⟨?_, ?_, ?_, rfl, rfl⟩
  · intro h
    simp [midKeyEvent, midSingleClick, h]
  · intro h
    simp [midKeyEvent, midSingleClick, h]
  · intro h
    rcases h with h | h <;> simp [midKeyEvent, midSingleClick, h]

/-- C17 at the boot state (preview mode): one click enters gallery mode, the
second one is back in preview mode. -/
theorem midKey_toggle_witness :
    (midKeyEvent .singleClick Sys.boot).keyMidState = 1 ∧
    (midKeyEvent .singleClick (midKeyEvent .singleClick Sys.boot)).keyMidState = 0 :=
  ⟨(midKey_toggle Sys.boot).1 rfl, (midKey_toggle Sys.boot).2.2.1 (Or.inl rfl)⟩

/-! ### C18: the next photo index -/

theorem scan_some (sd : SdCard) (fuel : Nat) : ∀ index n,
    TfCard_GetNextPhotoIndex_loop sd fuel index = some n →
      index ≤ n ∧ SD_exists sd n = false ∧
        ∀ k, index ≤ k → k < n → SD_exists sd k = true := by
  induction fuel with
  | zero => intro index n h; simp [TfCard_GetNextPhotoIndex_loop] at h
  | succ fuel ih =>
    intro index n h
    unfold TfCard_GetNextPhotoIndex_loop at h
    by_cases he : SD_exists sd index = false
    · rw [if_pos he] at h
      cases h
      exact ⟨Nat.le_refl _, he, fun k h1 h2 => absurd h1 (by omega)⟩
    · rw [if_neg he] at h
      obtain ⟨h1, h2, h3⟩ := ih (index + 1) n h
      refine ⟨by omega, h2, ?_⟩
      intro k hk hkn
      by_cases hki : k = index
      · subst hki; simpa using he
      · exact h3 k (by omega) hkn

/-- C18: on every card `TfCard_GetNextPhotoIndex` returns, and the index `n`
it returns is the least `n >= 1` for which `/photo_n.jpg` does not exist:
the file `n` is missing, every file `k` with `1 <= k < n` exists, and no
missing index from 1 on is smaller. The file that `TfCard_WritePhoto`
then writes is this one, which did not exist before the call. -/
theorem nextPhotoIndex_least (s : Sys) (data : List Nat) (size : Nat) :
    ∃ n, TfCard_GetNextPhotoIndex s.sd = some n ∧ 1 ≤ n ∧ SD_exists s.sd n = false ∧
      (∀ k, 1 ≤ k → k < n → SD_exists s.sd k = true) ∧
      (∀ m, 1 ≤ m → SD_exists s.sd m = false → n ≤ m) ∧
      ∃ s2, TfCard_WritePhoto true data size s = some s2 ∧
        s2.sd.photos = s.sd.photos ++ [(n, data.take size)] ∧
        actionsSince s s2 = [.fileWrite n (data.take size)] := by
  obtain ⟨n, hn⟩ := scan_returns s.sd
  obtain ⟨h1, h2, h3⟩ := scan_some s.sd _ 1 n hn
  refine ⟨n, hn, h1, h2, h3, ?_, ?_⟩
  · intro m hm hfree
    by_contra hlt
    have := h3 m hm (by omega)
    rw [hfree] at this
    cases this
  · refine ⟨({ s with sd := { photos := s.sd.photos ++ [(n, data.take size)] } }.log
        (.fileWrite n (data.take size))), by simp [TfCard_WritePhoto, hn], by simp [Sys.log], ?_⟩
    apply actionsSince_append
    simp [Sys.log]

/-! ### C19: the grid overlay -/

theorem foldl_set_length (l : List Nat) (c : Nat) : ∀ img : List Nat,
    (l.foldl (fun img i => img.set i c) img).length = img.length := by
  induction l with
  | nil => intro img; rfl
  | cons a l ih => intro img; simp [List.foldl_cons, ih]

theorem foldl_set_getElem (l : List Nat) (c : Nat) (j : Nat) : ∀ img : List Nat,
    (l.foldl (fun img i => img.set i c) img)[j]? =
      if j ∈ l then (if j < img.length then some c else none) else img[j]? := by
  induction l with
  | nil => intro img; simp
  | cons a l ih =>
    intro img
    rw [List.foldl_cons, ih (img.set a c), List.length_set, List.getElem?_set]
    by_cases hjl : j ∈ l
    · simp [hjl]
    · by_cases haj : a = j
      · subst haj
        simp [hjl]
      · have hja : ¬ j = a := fun h => haj h.symm
        simp [hjl, haj, hja]

theorem cell_unique (w y x y2 x2 : Nat) (hx : x < w) (hx2 : x2 < w)
    (h : y * w + x = y2 * w + x2) : y = y2 ∧ x = x2 := by
  rcases Nat.lt_trichotomy y y2 with hlt | heq | hgt
  · have := Nat.mul_le_mul_right w (Nat.succ_le_of_lt hlt)
    rw [Nat.succ_mul] at this
    omega
  · subst heq
    exact ⟨rfl, by omega⟩
  · have := Nat.mul_le_mul_right w (Nat.succ_le_of_lt hgt)
    rw [Nat.succ_mul] at this
    omega

/-- The assigned indices are those of the pixels on the four grid lines. -/
theorem mem_writes (width height x y : Nat) (hx : x < width) (hy : y < height) :
    y * width + x ∈ DisplayTask_DrawGrid3x3_writes width height ↔ onGrid width height x y := by
  have hc1 : width / 3 < width := by omega
  have hc2 : 2 * (width / 3) < width := by omega
  have hr1 : height / 3 < height := by omega
  have hr2 : 2 * (height / 3) < height := by omega
  simp only [DisplayTask_DrawGrid3x3_writes, List.mem_append, List.mem_flatMap, List.mem_range,
    List.mem_cons, List.mem_singleton, List.not_mem_nil, or_false, onGrid]
  constructor
  · rintro (⟨y2, _, h | h⟩ | ⟨x2, hx2, h | h⟩)
    · exact Or.inl (cell_unique _ _ _ _ _ hx hc1 h).2
    · exact Or.inr (Or.inl (cell_unique _ _ _ _ _ hx hc2 h).2)
    · exact Or.inr (Or.inr (Or.inl (cell_unique _ _ _ _ _ hx hx2 h).1))
    · exact Or.inr (Or.inr (Or.inr (cell_unique _ _ _ _ _ hx hx2 h).1))
  · rintro (h | h | h | h)
    · exact Or.inl ⟨y, hy, Or.inl (by rw [h])⟩
    · exact Or.inl ⟨y, hy, Or.inr (by rw [h])⟩
    · exact Or.inr ⟨x, hx, Or.inl (by rw [h])⟩
    · exact Or.inr ⟨x, hx, Or.inr (by rw [h])⟩

/-- C19: for `width >= 1`, `height >= 1` and a buffer of `width * height`
pixels, `DisplayTask_DrawGrid3x3` assigns the pixel at column `x`, row `y`
exactly when `x = width/3` or `x = 2*(width/3)` or `y = height/3` or
`y = 2*(height/3)`; after the call those pixels hold `color` and every other
pixel holds its previous value; the buffer keeps its size, and a second call
with the same arguments changes nothing. -/
theorem drawGrid_pixels (image : List Nat) (width height color : Nat)
    (hw : 1 ≤ width) (hh : 1 ≤ height) (hlen : image.length = width * height) :
    (DisplayTask_DrawGrid3x3 image width height color).length = width * height ∧
    (∀ x y, x < width → y < height →
      (y * width + x ∈ DisplayTask_DrawGrid3x3_writes width height ↔
        onGrid width height x y)) ∧
    (∀ x y, x < width → y < height → onGrid width height x y →
      (DisplayTask_DrawGrid3x3 image width height color)[y * width + x]? = some color) ∧
    (∀ x y, x < width → y < height → ¬ onGrid width height x y →
      (DisplayTask_DrawGrid3x3 image width height color)[y * width + x]? =
        image[y * width + x]?) ∧
    DisplayTask_DrawGrid3x3 (DisplayTask_DrawGrid3x3 image width height color)
        width height color =
      DisplayTask_DrawGrid3x3 image width height color := by
  have _ := hw
  have _ := hh
  refine ⟨?_, ?_, ?_, ?_, ?_⟩
  · rw [DisplayTask_DrawGrid3x3, foldl_set_length, hlen]
  · intro x y hx hy
    exact mem_writes width height x y hx hy
  · intro x y hx hy hg
    have hin : y * width + x < image.length := by
      rw [hlen]
      have := Nat.mul_le_mul_right width (Nat.succ_le_of_lt hy)
      rw [Nat.succ_mul] at this
      rw [Nat.mul_comm width height]
      omega
    rw [DisplayTask_DrawGrid3x3, foldl_set_getElem,
      if_pos ((mem_writes width height x y hx hy).mpr hg), if_pos hin]
  · intro x y hx hy hg
    rw [DisplayTask_DrawGrid3x3, foldl_set_getElem,
      if_neg (fun h => hg ((mem_writes width height x y hx hy).mp h))]
  · apply List.ext_getElem?
    intro j
    rw [DisplayTask_DrawGrid3x3, foldl_set_getElem]
    by_cases hj : j ∈ DisplayTask_DrawGrid3x3_writes width height
    · rw [if_pos hj, DisplayTask_DrawGrid3x3, foldl_set_getElem, if_pos hj, foldl_set_length]
    · rw [if_neg hj]

/-- C19 on a 6 x 3 buffer of zeros with colour 9: columns 2 and 4 and rows 1
and 2 are drawn. -/
theorem drawGrid_pixels_witness :
    DisplayTask_DrawGrid3x3 (List.replicate 18 0) 6 3 9 =
      [0, 0, 9, 0, 9, 0,
       9, 9, 9, 9, 9, 9,
       9, 9, 9, 9, 9, 9] ∧
    (DisplayTask_DrawGrid3x3 (List.replicate 18 0) 6 3 9)[0 * 6 + 2]? = some 9 ∧
    (DisplayTask_DrawGrid3x3 (List.replicate 18 0) 6 3 9)[0 * 6 + 3]? =
      (List.replicate 18 0)[0 * 6 + 3]? :=
  ⟨by decide,
   (drawGrid_pixels (List.replicate 18 0) 6 3 9 (by decide) (by decide) (by decide)).2.2.1
      2 0 (by decide) (by decide) (by unfold onGrid; decide),
   (drawGrid_pixels (List.replicate 18 0) 6 3 9 (by decide) (by decide) (by decide)).2.2.2.1
      3 0 (by decide) (by decide) (by unfold onGrid; decide)⟩

/-! ### C20: camera initialisation after a failure -/

/-- The closing loop of `DisplayTask_ShowError` is never left. -/
theorem showError_never_returns (fuel : Nat) : DisplayTask_ShowError fuel = false := by
  unfold DisplayTask_ShowError
  induction fuel with
  | zero => rfl
  | succ fuel ih => simpa [DisplayTask_ShowError_loop] using ih

/-- C20 fails on the code: with a driver whose first `esp_camera_init`
fails and whose every later call would return ESP_OK, `CameraTask_Init` has,
for every amount of fuel, not returned: control is inside
`DisplayTask_ShowError`, `esp_camera_init` has been called exactly once, the
driver is uninitialised and no frame queue has been created. -/
theorem cameraInit_stuck_in_showError (queueOk : Bool) (fuel showFuel : Nat) (s : Sys) :
    answersSecondOk 0 = false ∧ (∀ k, 1 ≤ k → answersSecondOk k = true) ∧
    (CameraTask_Init answersSecondOk queueOk (fuel + 1) showFuel s).2.2 = .inShowError ∧
    (CameraTask_Init answersSecondOk queueOk (fuel + 1) showFuel s).2.1 = none ∧
    countInit (actionsSince s (CameraTask_Init answersSecondOk queueOk (fuel + 1) showFuel s).1)
      = 1 ∧
    (CameraTask_Init answersSecondOk queueOk (fuel + 1) showFuel s).1.driver = none := by
  have h0 : answersSecondOk 0 = false := by decide
  have hshow := showError_never_returns showFuel
  have hrun : CameraTask_Init answersSecondOk queueOk (fuel + 1) showFuel s =
      (esp_camera_init false (CameraTask_InitPreviewConfig s), none, .inShowError) := by
    simp [CameraTask_Init, CameraTask_Init_retry, h0, hshow]
  rw [hrun]
  refine ⟨h0, ?_, rfl, rfl, ?_, ?_⟩
  · intro k hk
    simp [answersSecondOk, hk]
  · have ht : (esp_camera_init false (CameraTask_InitPreviewConfig s)).trace =
        s.trace ++ [.esp_camera_init previewProfile false] := by
      simp [esp_camera_init, CameraTask_InitPreviewConfig, Sys.log, previewProfile]
    show countInit (actionsSince s (esp_camera_init false (CameraTask_InitPreviewConfig s))) = 1
    rw [actionsSince_append _ _ _ ht]
    simp [countInit]
  · simp [esp_camera_init, CameraTask_InitPreviewConfig, Sys.log]

/-- When the first `esp_camera_init` succeeds, `CameraTask_Init` returns
with the driver initialised from the Preview profile and, if `xQueueCreate`
succeeds, the frame queue of length 1. -/
theorem cameraInit_first_ok (answers : Nat → Bool) (fuel showFuel : Nat) (s : Sys)
    (h : answers 0 = true) :
    (CameraTask_Init answers true fuel showFuel s).2.2 = .returned ∧
    (CameraTask_Init answers true fuel showFuel s).2.1 = some (xQueueCreate FramePtr 1) ∧
    (CameraTask_Init answers true fuel showFuel s).1.driver = some previewProfile := by
  simp [CameraTask_Init, h, CameraTask_InitSensorConfig, esp_camera_sensor_get, esp_camera_init,
    CameraTask_InitPreviewConfig, Sys.log, previewProfile]

/-! ### C21: the frame pointer is used without a null check -/

/-- C21 fails on the code: from the boot state with a successful photo-mode
init and `esp_camera_fb_get` returning `NULL`, the call reaches the access to
`fb->buf` with `fb == NULL` and does not return; the last action before it is
the acquisition that gave no frame. -/
theorem savePhoto_null_frame_dereferenced :
    (DisplayTask_SavePhoto { SaveEnv.allOk with frame := none } Sys.boot).2 = .nullFrame ∧
    (DisplayTask_SavePhoto { SaveEnv.allOk with frame := none } Sys.boot).2.returns = false ∧
    (DisplayTask_SavePhoto { SaveEnv.allOk with frame := none } Sys.boot).1.trace.getLast? =
      some (.esp_camera_fb_get none) ∧
    (DisplayTask_SavePhoto { SaveEnv.allOk with frame := none } Sys.boot).1.cameraTaskHandle =
      none := by
  decide

/-! ### C22: the flag is cleared, the pin is kept -/

theorem flag_stage_clears (key : KeyInfo) (now : Nat) :
    (handleKey_flag key now).1.flag = false ∧ (handleKey_flag key now).1.pin = key.pin := by
  cases hf : key.flag <;> by_cases hs : key.state = .KEY_IDLE <;>
    by_cases hw : key.state = .KEY_WAIT_SECOND ∧ usub now key.lastPress < DOUBLE_CLICK_MS <;>
    simp [handleKey_flag, hf, hs, hw]

theorem long_stage_keeps (key : KeyInfo) (now : Nat) :
    (handleKey_long key now).1.flag = key.flag ∧ (handleKey_long key now).1.pin = key.pin := by
  unfold handleKey_long
  split_ifs <;> exact ⟨rfl, rfl⟩

theorem release_stage_keeps (key : KeyInfo) (now : Nat) (pinHigh : Bool) :
    (handleKey_release key now pinHigh).flag = key.flag ∧
    (handleKey_release key now pinHigh).pin = key.pin := by
  unfold handleKey_release
  split_ifs <;> exact ⟨rfl, rfl⟩

theorem timeout_stage_keeps (key : KeyInfo) (now : Nat) :
    (handleKey_timeout key now).1.flag = key.flag ∧
    (handleKey_timeout key now).1.pin = key.pin := by
  unfold handleKey_timeout
  split_ifs <;> exact ⟨rfl, rfl⟩

/-- C22: for every key record, time and pin level, after one `handleKey`
evaluation the flag is false and the `pin` field is unchanged. -/
theorem handleKey_clears_flag (key : KeyInfo) (now : Nat) (pinHigh : Bool) :
    (handleKey key now pinHigh).1.flag = false ∧ (handleKey key now pinHigh).1.pin = key.pin := by
  simp only [handleKey]
  obtain ⟨f1, p1⟩ := flag_stage_clears key now
  obtain ⟨f2, p2⟩ := long_stage_keeps (handleKey_flag key now).1 now
  obtain ⟨f3, p3⟩ := release_stage_keeps (handleKey_long (handleKey_flag key now).1 now).1 now pinHigh
  obtain ⟨f4, p4⟩ := timeout_stage_keeps
    (handleKey_release (handleKey_long (handleKey_flag key now).1 now).1 now pinHigh) now
  exact ⟨by rw [f4, f3, f2, f1], by rw [p4, p3, p2, p1]⟩

/-! ### C26: at most one event per evaluation -/

/-- C26: for every key record, time and pin level, one `handleKey`
evaluation fires at most one event: its event list is empty or holds exactly
one of single click, double click, long press. -/
theorem handleKey_one_event (key : KeyInfo) (now : Nat) (pinHigh : Bool) :
    (handleKey key now pinHigh).2.length ≤ 1 ∧
    ((handleKey key now pinHigh).2 = [] ∨ (handleKey key now pinHigh).2 = [.singleClick] ∨
      (handleKey key now pinHigh).2 = [.doubleClick] ∨
      (handleKey key now pinHigh).2 = [.longPress]) := by
  rcases handleKey_outcomes key now pinHigh with h | ⟨h, _⟩ | ⟨h, _⟩ | ⟨h, _⟩ <;> simp [h]

/-! ### C24: `skipSingle` is clear while a click is pending -/

/-- One evaluation keeps the property that `skipSingle` is false in
KEY_PRESSED and in KEY_WAIT_SECOND. -/
theorem handleKey_keeps_skipClear (key : KeyInfo) (now : Nat) (pinHigh : Bool)
    (h : key.state = .KEY_PRESSED ∨ key.state = .KEY_WAIT_SECOND → key.skipSingle = false) :
    (handleKey key now pinHigh).1.state = .KEY_PRESSED ∨
        (handleKey key now pinHigh).1.state = .KEY_WAIT_SECOND →
      (handleKey key now pinHigh).1.skipSingle = false := by
  simp only [handleKey]
  have h1 : (handleKey_flag key now).1.state = .KEY_PRESSED ∨
      (handleKey_flag key now).1.state = .KEY_WAIT_SECOND →
      (handleKey_flag key now).1.skipSingle = false := by
    unfold handleKey_flag
    dsimp only
    split_ifs <;>
      first
        | exact h
        | (intro _; rfl)
        | (intro hh; rcases hh with hh | hh <;> cases hh)
  generalize handleKey_flag key now = r1 at h1 ⊢
  have h2 : (handleKey_long r1.1 now).1.state = .KEY_PRESSED ∨
      (handleKey_long r1.1 now).1.state = .KEY_WAIT_SECOND →
      (handleKey_long r1.1 now).1.skipSingle = false := by
    unfold handleKey_long
    split_ifs <;>
      first
        | exact h1
        | (intro hh; rcases hh with hh | hh <;> cases hh)
  generalize handleKey_long r1.1 now = r2 at h2 ⊢
  have h3 : (handleKey_release r2.1 now pinHigh).state = .KEY_PRESSED ∨
      (handleKey_release r2.1 now pinHigh).state = .KEY_WAIT_SECOND →
      (handleKey_release r2.1 now pinHigh).skipSingle = false := by
    unfold handleKey_release
    split_ifs with ha hb
    · intro _
      exact h2 (Or.inl hb)
    · intro hh
      rcases hh with hh | hh <;> cases hh
    · exact h2
  generalize handleKey_release r2.1 now pinHigh = k3 at h3 ⊢
  unfold handleKey_timeout
  split_ifs <;>
    first
      | exact h3
      | (intro hh; rcases hh with hh | hh <;> cases hh)

theorem runKey_keeps_skipClear (ticks : List Tick) : ∀ key : KeyInfo,
    (key.state = .KEY_PRESSED ∨ key.state = .KEY_WAIT_SECOND → key.skipSingle = false) →
    ((runKey key ticks).1.state = .KEY_PRESSED ∨
        (runKey key ticks).1.state = .KEY_WAIT_SECOND →
      (runKey key ticks).1.skipSingle = false) := by
  induction ticks with
  | nil => intro key h; exact h
  | cons t ts ih =>
    intro key h
    apply ih (tick key t).1
    apply handleKey_keeps_skipClear
    exact h

/-- A timeout in KEY_WAIT_SECOND with `skipSingle` clear fires the single
click, with or without a flag. -/
theorem tick_timeout_fires (key : KeyInfo) (t : Tick) (hs : key.state = .KEY_WAIT_SECOND)
    (hk : key.skipSingle = false) (hw : usub t.now key.lastPress > DOUBLE_CLICK_MS) :
    (tick key t).2 = [.singleClick] ∧ (tick key t).1.state = .KEY_IDLE := by
  have hw2 : ¬ (usub t.now key.lastPress < DOUBLE_CLICK_MS) := by omega
  obtain ⟨pin, st, ps, lp, fl, sk⟩ := key
  simp only at hs hk hw hw2
  subst hs hk
  cases fl <;> cases hi : t.isr <;>
    simp [tick, handleKey, handleKey_flag, handleKey_long, handleKey_release, handleKey_timeout,
      hi, hw, hw2]

/-- C24: in every key record reached from the initial `keyArray` entry by
any sequence of `handleKey` evaluations, state KEY_PRESSED or KEY_WAIT_SECOND
implies `skipSingle = false`; so every evaluation that finds the key in
KEY_WAIT_SECOND with `now - lastPress > 400` fires the single click and only
it, and goes to KEY_IDLE. -/
theorem skipSingle_clear_while_pending (pin : Int) (ticks : List Tick) :
    ((runKey (keyArrayInit pin) ticks).1.state = .KEY_PRESSED ∨
        (runKey (keyArrayInit pin) ticks).1.state = .KEY_WAIT_SECOND →
      (runKey (keyArrayInit pin) ticks).1.skipSingle = false) ∧
    (∀ t : Tick, (runKey (keyArrayInit pin) ticks).1.state = .KEY_WAIT_SECOND →
      usub t.now (runKey (keyArrayInit pin) ticks).1.lastPress > DOUBLE_CLICK_MS →
      (tick (runKey (keyArrayInit pin) ticks).1 t).2 = [.singleClick] ∧
      (tick (runKey (keyArrayInit pin) ticks).1 t).1.state = .KEY_IDLE) := by
  have hinv := runKey_keeps_skipClear ticks (keyArrayInit pin) (by simp [keyArrayInit])
  refine ⟨hinv, ?_⟩
  intro t hs hw
  exact tick_timeout_fires _ t hs (hinv (Or.inr hs)) hw

/-- C24 on the camera key after a press at 1000 and the release at 1100: the
key waits with `skipSingle` clear, and a tick at 1600 fires the single click
even though it carries a flag. -/
theorem skipSingle_clear_while_pending_witness :
    (runKey (keyArrayInit KEY_CAM_PIN)
      [⟨true, 1000, false⟩, ⟨false, 1100, true⟩]).1.state = .KEY_WAIT_SECOND ∧
    (runKey (keyArrayInit KEY_CAM_PIN)
      [⟨true, 1000, false⟩, ⟨false, 1100, true⟩]).1.skipSingle = false ∧
    (tick (runKey (keyArrayInit KEY_CAM_PIN)
      [⟨true, 1000, false⟩, ⟨false, 1100, true⟩]).1 ⟨true, 1600, true⟩).2 = [.singleClick] :=
  ⟨by decide,
   (skipSingle_clear_while_pending KEY_CAM_PIN
      [⟨true, 1000, false⟩, ⟨false, 1100, true⟩]).1 (Or.inr (by decide)),
   ((skipSingle_clear_while_pending KEY_CAM_PIN
      [⟨true, 1000, false⟩, ⟨false, 1100, true⟩]).2 ⟨true, 1600, true⟩ (by decide)
      (by decide)).1⟩

/-! ### C25: a flag that arrives after the window -/

/-- A key in KEY_WAIT_SECOND with `skipSingle` clear, evaluated with the flag
set at `now - lastPress >= 400`. -/
theorem handleKey_late_flag (key : KeyInfo) (now : Nat) (pinHigh : Bool)
    (hs : key.state = .KEY_WAIT_SECOND) (hf : key.flag = true) (hk : key.skipSingle = false)
    (hlate : usub now key.lastPress ≥ DOUBLE_CLICK_MS) :
    KeyEvent.doubleClick ∉ (handleKey key now pinHigh).2 ∧
    (handleKey key now pinHigh).1.pressStart = key.pressStart ∧
    (handleKey key now pinHigh).1.state ≠ .KEY_PRESSED ∧
    (usub now key.lastPress = DOUBLE_CLICK_MS →
      (handleKey key now pinHigh).1.state = .KEY_WAIT_SECOND ∧
      (handleKey key now pinHigh).2 = []) ∧
    (usub now key.lastPress > DOUBLE_CLICK_MS →
      (handleKey key now pinHigh).1.state = .KEY_IDLE ∧
      (handleKey key now pinHigh).2 = [.singleClick]) := by
  have hw2 : ¬ (usub now key.lastPress < DOUBLE_CLICK_MS) := by omega
  obtain ⟨pin, st, ps, lp, fl, sk⟩ := key
  simp only at hs hf hk hlate hw2
  subst hs hf hk
  by_cases hgt : DOUBLE_CLICK_MS < usub now lp
  · have hne : ¬ (usub now lp = DOUBLE_CLICK_MS) := by omega
    simp [handleKey, handleKey_flag, handleKey_long, handleKey_release, handleKey_timeout,
      hw2, hgt, hne]
  · have heq : usub now lp = DOUBLE_CLICK_MS := by omega
    simp [handleKey, handleKey_flag, handleKey_long, handleKey_release, handleKey_timeout,
      heq]

/-- C25: for every key record reached from the initial `keyArray` entry
that is in KEY_WAIT_SECOND, an evaluation with the flag set and
`now - lastPress >= 400` fires no double click and consumes the flag without
starting a press (`pressStart` unchanged, state not KEY_PRESSED); with
`now - lastPress = 400` the key stays in KEY_WAIT_SECOND and nothing fires,
with `now - lastPress > 400` it goes to KEY_IDLE and the single click fires. -/
theorem waitSecond_late_flag (pin : Int) (ticks : List Tick) (now : Nat) (pinHigh : Bool)
    (hs : (runKey (keyArrayInit pin) ticks).1.state = .KEY_WAIT_SECOND)
    (hlate : usub now (runKey (keyArrayInit pin) ticks).1.lastPress ≥ DOUBLE_CLICK_MS) :
    KeyEvent.doubleClick ∉ (tick (runKey (keyArrayInit pin) ticks).1 ⟨true, now, pinHigh⟩).2 ∧
    (tick (runKey (keyArrayInit pin) ticks).1 ⟨true, now, pinHigh⟩).1.flag = false ∧
    (tick (runKey (keyArrayInit pin) ticks).1 ⟨true, now, pinHigh⟩).1.pressStart =
      (runKey (keyArrayInit pin) ticks).1.pressStart ∧
    (tick (runKey (keyArrayInit pin) ticks).1 ⟨true, now, pinHigh⟩).1.state ≠ .KEY_PRESSED ∧
    (usub now (runKey (keyArrayInit pin) ticks).1.lastPress = DOUBLE_CLICK_MS →
      (tick (runKey (keyArrayInit pin) ticks).1 ⟨true, now, pinHigh⟩).1.state =
        .KEY_WAIT_SECOND ∧
      (tick (runKey (keyArrayInit pin) ticks).1 ⟨true, now, pinHigh⟩).2 = []) ∧
    (usub now (runKey (keyArrayInit pin) ticks).1.lastPress > DOUBLE_CLICK_MS →
      (tick (runKey (keyArrayInit pin) ticks).1 ⟨true, now, pinHigh⟩).1.state = .KEY_IDLE ∧
      (tick (runKey (keyArrayInit pin) ticks).1 ⟨true, now, pinHigh⟩).2 = [.singleClick]) := by
  have hinv := runKey_keeps_skipClear ticks (keyArrayInit pin) (by simp [keyArrayInit])
  have hk := hinv (Or.inr hs)
  generalize (runKey (keyArrayInit pin) ticks).1 = k at hs hlate hk ⊢
  have hmain := handleKey_late_flag { k with flag := k.flag || true } now pinHigh hs
    (by simp) hk hlate
  have hflag := (flag_stage_clears { k with flag := k.flag || true } now).1
  obtain ⟨h1, h2, h3, h4, h5⟩ := hmain
  refine ⟨h1, ?_, h2, h3, h4, h5⟩
  have f2 := (long_stage_keeps (handleKey_flag { k with flag := k.flag || true } now).1 now).1
  have f3 := (release_stage_keeps
    (handleKey_long (handleKey_flag { k with flag := k.flag || true } now).1 now).1 now pinHigh).1
  have f4 := (timeout_stage_keeps (handleKey_release
    (handleKey_long (handleKey_flag { k with flag := k.flag || true } now).1 now).1
      now pinHigh) now).1
  show (handleKey { k with flag := k.flag || true } now pinHigh).1.flag = false
  simp only [handleKey]
  rw [f4, f3, f2, hflag]

/-- C25 on the camera key after a press at 1000 and the release at 1100: a
flag at 1500 (exactly 400 ms later) is dropped without any event. -/
theorem waitSecond_late_flag_witness :
    (tick (runKey (keyArrayInit KEY_CAM_PIN)
      [⟨true, 1000, false⟩, ⟨false, 1100, true⟩]).1 ⟨true, 1500, false⟩).1.state =
        .KEY_WAIT_SECOND ∧
    (tick (runKey (keyArrayInit KEY_CAM_PIN)
      [⟨true, 1000, false⟩, ⟨false, 1100, true⟩]).1 ⟨true, 1500, false⟩).2 = [] :=
  (waitSecond_late_flag KEY_CAM_PIN [⟨true, 1000, false⟩, ⟨false, 1100, true⟩] 1500 false
    (by decide) (by decide)).2.2.2.2.1 (by decide)

/-! ### C23: the frame-rate window -/

theorem int32_of_small (x : Int) (h0 : 0 ≤ x) (h1 : x < 2 ^ 31) : int32 x = x := by
  unfold int32
  omega

/-- C23: for a frame received at time `now`, with `frameCount` in the range
in which the `int` increment does not overflow: if
`now - lastFrameMillis >= 1000` (unsigned 32-bit difference) the frame rate
is recomputed from `frameCount + 1` frames over the divisor
`now - lastFrameMillis`, which is at least 1000 and so not zero, `frameCount`
becomes 0 and `lastFrameMillis` becomes `now`; otherwise `frameCount` grows
by exactly 1 and `lastFrameMillis` and `frameRate` are unchanged. -/
theorem frameRate_window (now : Nat) (st : FpsState)
    (h0 : 0 ≤ st.frameCount) (h1 : st.frameCount < 2 ^ 31 - 1) :
    (usub now st.lastFrameMillis ≥ 1000 →
      (DisplayTask_ShowCamera_frameRate now st).frameRate =
        .quotient (st.frameCount + 1) (usub now st.lastFrameMillis) ∧
      1000 ≤ usub now st.lastFrameMillis ∧ usub now st.lastFrameMillis ≠ 0 ∧
      (DisplayTask_ShowCamera_frameRate now st).frameCount = 0 ∧
      (DisplayTask_ShowCamera_frameRate now st).lastFrameMillis = now) ∧
    (usub now st.lastFrameMillis < 1000 →
      (DisplayTask_ShowCamera_frameRate now st).frameCount = st.frameCount + 1 ∧
      (DisplayTask_ShowCamera_frameRate now st).lastFrameMillis = st.lastFrameMillis ∧
      (DisplayTask_ShowCamera_frameRate now st).frameRate = st.frameRate) := by
  have hinc : int32 (st.frameCount + 1) = st.frameCount + 1 :=
    int32_of_small _ (by omega) (by omega)
  constructor
  · intro h
    unfold DisplayTask_ShowCamera_frameRate
    dsimp only
    rw [hinc, if_pos h]
    exact ⟨rfl, h, by omega, rfl, rfl⟩
  · intro h
    have hn : ¬ (usub now st.lastFrameMillis ≥ 1000) := by omega
    unfold DisplayTask_ShowCamera_frameRate
    dsimp only
    rw [hinc, if_neg hn]
    exact ⟨rfl, rfl, rfl⟩

/-- C23 on two frames: 33 frames counted and the window started at 5000, a
frame at 5990 is only counted; a frame at 6010 closes the window with
34 frames over 1010 ms. -/
theorem frameRate_window_witness :
    (DisplayTask_ShowCamera_frameRate 5990 ⟨5000, 33, .zero⟩) = ⟨5000, 34, .zero⟩ ∧
    (DisplayTask_ShowCamera_frameRate 6010 ⟨5000, 33, .zero⟩) = ⟨6010, 0, .quotient 34 1010⟩ ∧
    (DisplayTask_ShowCamera_frameRate 6010 ⟨5000, 33, .zero⟩).frameRate =
      .quotient (33 + 1) (usub 6010 5000) :=
  ⟨by decide, by decide,
   ((frameRate_window 6010 ⟨5000, 33, .zero⟩ (by decide) (by decide)).1 (by decide)).1⟩

/-! ### C27: ranges and periods of the two parameters -/

theorem pressTop_level (s : Sys) : (pressTop s).cameraParamLevel = s.cameraParamLevel := by
  unfold pressTop DisplayTask_topKey
  rw [if_pos rfl]
  dsimp only
  rw [(sensorConfig_params _).2.1]
  split_ifs <;> rfl

theorem pressDown_effect (s : Sys) : (pressDown s).cameraEffectMode = s.cameraEffectMode := by
  unfold pressDown DisplayTask_downKey
  rw [if_pos rfl]
  dsimp only
  rw [(sensorConfig_params _).1]
  split_ifs <;> rfl

theorem pressTop_iterate (n : Nat) (s : Sys) :
    (pressTop^[n] s).cameraEffectMode = effectStep^[n] s.cameraEffectMode := by
  induction n with
  | zero => rfl
  | succ n ih =>
    rw [Function.iterate_succ_apply', Function.iterate_succ_apply', pressTop_effect, ih]
    rfl

theorem pressDown_iterate (n : Nat) (s : Sys) :
    (pressDown^[n] s).cameraParamLevel = levelStep^[n] s.cameraParamLevel := by
  induction n with
  | zero => rfl
  | succ n ih =>
    rw [Function.iterate_succ_apply', Function.iterate_succ_apply', pressDown_level, ih]
    rfl

theorem effectStep_period (e : Int) (h0 : 0 ≤ e) (h6 : e ≤ 6) :
    effectStep^[7] e = e ∧ ∀ n, 0 < n → n < 7 → effectStep^[n] e ≠ e := by
  have hcases : e = 0 ∨ e = 1 ∨ e = 2 ∨ e = 3 ∨ e = 4 ∨ e = 5 ∨ e = 6 := by omega
  rcases hcases with h | h | h | h | h | h | h <;> subst h <;>
    refine ⟨by decide, ?_⟩ <;> intro n hn0 hn7 <;> interval_cases n <;> decide

theorem levelStep_period (l : Int) (h0 : -2 ≤ l) (h2 : l ≤ 2) :
    levelStep^[5] l = l ∧ ∀ n, 0 < n → n < 5 → levelStep^[n] l ≠ l := by
  have hcases : l = -2 ∨ l = -1 ∨ l = 0 ∨ l = 1 ∨ l = 2 := by omega
  rcases hcases with h | h | h | h | h <;> subst h <;>
    refine ⟨by decide, ?_⟩ <;> intro n hn0 hn5 <;> interval_cases n <;> decide

theorem pressKey_keeps_range (s : Sys) (k : PreviewKey)
    (h : (0 ≤ s.cameraEffectMode ∧ s.cameraEffectMode ≤ 6) ∧
      (-2 ≤ s.cameraParamLevel ∧ s.cameraParamLevel ≤ 2)) :
    (0 ≤ (pressKey s k).cameraEffectMode ∧ (pressKey s k).cameraEffectMode ≤ 6) ∧
      (-2 ≤ (pressKey s k).cameraParamLevel ∧ (pressKey s k).cameraParamLevel ≤ 2) := by
  cases k with
  | top =>
    show (0 ≤ (pressTop s).cameraEffectMode ∧ (pressTop s).cameraEffectMode ≤ 6) ∧
      (-2 ≤ (pressTop s).cameraParamLevel ∧ (pressTop s).cameraParamLevel ≤ 2)
    rw [pressTop_effect, pressTop_level]
    refine ⟨?_, h.2⟩
    split_ifs <;> omega
  | down =>
    show (0 ≤ (pressDown s).cameraEffectMode ∧ (pressDown s).cameraEffectMode ≤ 6) ∧
      (-2 ≤ (pressDown s).cameraParamLevel ∧ (pressDown s).cameraParamLevel ≤ 2)
    rw [pressDown_level, pressDown_effect]
    refine ⟨h.1, ?_⟩
    split_ifs <;> omega

theorem pressKeys_keeps_range (keys : List PreviewKey) : ∀ s : Sys,
    ((0 ≤ s.cameraEffectMode ∧ s.cameraEffectMode ≤ 6) ∧
      (-2 ≤ s.cameraParamLevel ∧ s.cameraParamLevel ≤ 2)) →
    (0 ≤ (pressKeys s keys).cameraEffectMode ∧ (pressKeys s keys).cameraEffectMode ≤ 6) ∧
      (-2 ≤ (pressKeys s keys).cameraParamLevel ∧ (pressKeys s keys).cameraParamLevel ≤ 2) := by
  induction keys with
  | nil => intro s h; exact h
  | cons k ks ih =>
    intro s h
    exact ih (pressKey s k) (pressKey_keeps_range s k h)

/-- C27: from `cameraEffectMode = 0` and `cameraParamLevel = 0`, after every
sequence of top-key and down-key steps of the preview branch the effect mode
is in [0, 6] and the level in [-2, 2]. On those ranges the top-key step
returns to its start after exactly 7 steps and the down-key step after
exactly 5, and no fewer. The top-key step leaves the level alone and the
down-key step leaves the effect mode alone. -/
theorem preview_params_cycle (s : Sys) (keys : List PreviewKey)
    (he : s.cameraEffectMode = 0) (hl : s.cameraParamLevel = 0) :
    (0 ≤ (pressKeys s keys).cameraEffectMode ∧ (pressKeys s keys).cameraEffectMode ≤ 6) ∧
    (-2 ≤ (pressKeys s keys).cameraParamLevel ∧ (pressKeys s keys).cameraParamLevel ≤ 2) ∧
    (∀ t : Sys, 0 ≤ t.cameraEffectMode → t.cameraEffectMode ≤ 6 →
      (pressTop^[7] t).cameraEffectMode = t.cameraEffectMode ∧
      ∀ n, 0 < n → n < 7 → (pressTop^[n] t).cameraEffectMode ≠ t.cameraEffectMode) ∧
    (∀ t : Sys, -2 ≤ t.cameraParamLevel → t.cameraParamLevel ≤ 2 →
      (pressDown^[5] t).cameraParamLevel = t.cameraParamLevel ∧
      ∀ n, 0 < n → n < 5 → (pressDown^[n] t).cameraParamLevel ≠ t.cameraParamLevel) ∧
    (∀ t : Sys, (pressTop t).cameraParamLevel = t.cameraParamLevel) ∧
    (∀ t : Sys, (pressDown t).cameraEffectMode = t.cameraEffectMode) := by
  have hr := pressKeys_keeps_range keys s (by rw [he, hl]; decide)
  refine ⟨hr.1, hr.2, ?_, ?_, pressTop_level, pressDown_effect⟩
  · intro t h0 h6
    obtain ⟨p1, p2⟩ := effectStep_period t.cameraEffectMode h0 h6
    refine ⟨by rw [pressTop_iterate, p1], ?_⟩
    intro n hn0 hn7
    rw [pressTop_iterate]
    exact p2 n hn0 hn7
  · intro t h0 h2
    obtain ⟨p1, p2⟩ := levelStep_period t.cameraParamLevel h0 h2
    refine ⟨by rw [pressDown_iterate, p1], ?_⟩
    intro n hn0 hn5
    rw [pressDown_iterate]
    exact p2 n hn0 hn5

/-- C27 from the boot state: after top, top, down, top, down the effect mode
is 3 and the level 2, inside the ranges. -/
theorem preview_params_cycle_witness :
    (pressKeys Sys.boot [.top, .top, .down, .top, .down]).cameraEffectMode = 3 ∧
    (pressKeys Sys.boot [.top, .top, .down, .top, .down]).cameraParamLevel = 2 ∧
    (0 ≤ (pressKeys Sys.boot [.top, .top, .down, .top, .down]).cameraEffectMode ∧
      (pressKeys Sys.boot [.top, .top, .down, .top, .down]).cameraEffectMode ≤ 6) ∧
    (pressTop^[7] Sys.boot).cameraEffectMode = Sys.boot.cameraEffectMode :=
  ⟨by decide, by decide,
   (preview_params_cycle Sys.boot [.top, .top, .down, .top, .down] rfl rfl).1,
   ((preview_params_cycle Sys.boot [.top, .top, .down, .top, .down] rfl rfl).2.2.1
      Sys.boot (by decide) (by decide)).1⟩

/-! ### C28: elapsed times are unsigned 32-bit differences -/

theorem usub_eq_int_mod (a b : Nat) (ha : a < 2 ^ 32) (hb : b < 2 ^ 32) :
    (usub a b : Int) = ((a : Int) - (b : Int)) % 2 ^ 32 := by
  unfold usub ULONG_RANGE
  omega

/-- A time recorded at `t0` and read `elapsed` ms later, both as `millis()`
returns them, differ by `elapsed`, wrap or no wrap. -/
theorem usub_true_elapsed (t0 elapsed : Nat) (h : elapsed < 2 ^ 32) :
    usub ((t0 + elapsed) % 2 ^ 32) (t0 % 2 ^ 32) = elapsed := by
  unfold usub ULONG_RANGE
  omega

/-- C28: for `pressStart`, `lastPress` and `now` in [0, 2^32), the long-press
test of `handleKey` holds iff the key is in KEY_PRESSED and
`(now - pressStart) mod 2^32 > 800`; the double-click test holds iff the flag
is set in KEY_WAIT_SECOND and `(now - lastPress) mod 2^32 < 400`; the
single-click timeout holds in KEY_WAIT_SECOND iff
`(now - lastPress) mod 2^32 > 400`. A time recorded at true time `t0` and
compared at true time `t0 + elapsed`, both read modulo 2^32, gives `elapsed`
whenever `elapsed < 2^32`, also across a wrap of `millis()`. -/
theorem elapsed_mod_2_32 (key : KeyInfo) (now : Nat) (hn : now < 2 ^ 32)
    (hp : key.pressStart < 2 ^ 32) (hl : key.lastPress < 2 ^ 32) :
    ((handleKey_long key now).2 = [.longPress] ↔
      key.state = .KEY_PRESSED ∧ ((now : Int) - (key.pressStart : Int)) % 2 ^ 32 > 800) ∧
    ((handleKey_flag key now).2 = [.doubleClick] ↔
      key.flag = true ∧ key.state = .KEY_WAIT_SECOND ∧
        ((now : Int) - (key.lastPress : Int)) % 2 ^ 32 < 400) ∧
    (key.state = .KEY_WAIT_SECOND →
      ((handleKey_timeout key now).1.state = .KEY_IDLE ↔
        ((now : Int) - (key.lastPress : Int)) % 2 ^ 32 > 400)) ∧
    (∀ t0 elapsed : Nat, elapsed < 2 ^ 32 →
      usub ((t0 + elapsed) % 2 ^ 32) (t0 % 2 ^ 32) = elapsed) := by
  have e1 := usub_eq_int_mod now key.pressStart hn hp
  have e2 := usub_eq_int_mod now key.lastPress hn hl
  refine ⟨?_, ?_, ?_, usub_true_elapsed⟩
  · rw [← e1]
    by_cases h : key.state = .KEY_PRESSED ∧ usub now key.pressStart > LONG_PRESS_MS
    · have h2 : (800 : Int) < (usub now key.pressStart : Int) := by
        have := h.2
        unfold LONG_PRESS_MS at this
        omega
      simp [handleKey_long, h, h.1, h2]
    · have h2 : ¬ (key.state = .KEY_PRESSED ∧ (usub now key.pressStart : Int) > 800) := by
        intro hc
        apply h
        refine ⟨hc.1, ?_⟩
        have := hc.2
        unfold LONG_PRESS_MS
        omega
      simp only [handleKey_long, if_neg h]
      constructor
      · intro hc; cases hc
      · intro hc; exact absurd hc h2
  · rw [← e2]
    by_cases hf : key.flag = true
    · by_cases hs : key.state = .KEY_IDLE
      · have hne : ¬ key.state = .KEY_WAIT_SECOND := by rw [hs]; decide
        simp [handleKey_flag, hf, hs]
      · by_cases hw : key.state = .KEY_WAIT_SECOND ∧ usub now key.lastPress < DOUBLE_CLICK_MS
        · have h2 : (usub now key.lastPress : Int) < 400 := by
            have := hw.2
            unfold DOUBLE_CLICK_MS at this
            omega
          simp [handleKey_flag, hf, hs, hw, hw.1, h2]
        · have h2 : ¬ (key.state = .KEY_WAIT_SECOND ∧ (usub now key.lastPress : Int) < 400) := by
            intro hc
            apply hw
            refine ⟨hc.1, ?_⟩
            have := hc.2
            unfold DOUBLE_CLICK_MS
            omega
          simp only [handleKey_flag, if_pos hf, if_neg hs, if_neg hw]
          constructor
          · intro hc; cases hc
          · intro hc; exact absurd hc.2 h2
    · simp [handleKey_flag, hf]
  · intro hs
    rw [← e2]
    by_cases hw : key.state = .KEY_WAIT_SECOND ∧ usub now key.lastPress > DOUBLE_CLICK_MS
    · have h2 : (400 : Int) < (usub now key.lastPress : Int) := by
        have := hw.2
        unfold DOUBLE_CLICK_MS at this
        omega
      simp [handleKey_timeout, hw, h2]
    · have h2 : ¬ ((400 : Int) < (usub now key.lastPress : Int)) := by
        intro hc
        apply hw
        refine ⟨hs, ?_⟩
        unfold DOUBLE_CLICK_MS
        omega
      simp only [handleKey_timeout, if_neg hw]
      constructor
      · intro hc; rw [hs] at hc; cases hc
      · intro hc; exact absurd hc h2

/-- C28 across a wrap: a press recorded 100 ms before `millis()` wraps and
evaluated at `now = 800` is 900 ms old, so the long press fires. -/
theorem elapsed_mod_2_32_witness :
    (handleKey_long ⟨KEY_CAM_PIN, .KEY_PRESSED, 4294967196, 0, false, false⟩ 800).2 =
      [.longPress] ∧
    usub 800 4294967196 = 900 :=
  ⟨((elapsed_mod_2_32 ⟨KEY_CAM_PIN, .KEY_PRESSED, 4294967196, 0, false, false⟩ 800
      (by decide) (by decide) (by decide)).1).mpr ⟨rfl, by decide⟩,
   by decide⟩

/-! ### C29: the grid overlay writes inside the buffer -/

theorem length_flatMap_pair (f g : Nat → Nat) (l : List Nat) :
    (l.flatMap (fun y => [f y, g y])).length = 2 * l.length := by
  induction l with
  | nil => rfl
  | cons a l ih =>
    rw [List.flatMap_cons, List.length_append, ih]
    simp only [List.length_cons, List.length_nil]
    omega

/-- C29: for `width >= 1` and `height >= 1`, every index that
`DisplayTask_DrawGrid3x3` assigns is below `width * height`, so on a buffer
of `width * height` pixels no assignment is out of bounds; the two loops make
`2 * height + 2 * width` assignments. -/
theorem drawGrid_in_bounds (width height : Nat) (hw : 1 ≤ width) (hh : 1 ≤ height) :
    (∀ i ∈ DisplayTask_DrawGrid3x3_writes width height, i < width * height) ∧
    (∀ image : List Nat, image.length = width * height →
      ∀ i ∈ DisplayTask_DrawGrid3x3_writes width height, i < image.length) ∧
    (DisplayTask_DrawGrid3x3_writes width height).length = 2 * height + 2 * width := by
  have hbound : ∀ i ∈ DisplayTask_DrawGrid3x3_writes width height, i < width * height := by
    intro i hi
    simp only [DisplayTask_DrawGrid3x3_writes, List.mem_append, List.mem_flatMap, List.mem_range,
      List.mem_cons, List.mem_singleton, List.not_mem_nil, or_false] at hi
    rw [Nat.mul_comm width height]
    rcases hi with ⟨y, hy, h | h⟩ | ⟨x, hx, h | h⟩
    · have := Nat.mul_le_mul_right width (Nat.succ_le_of_lt hy)
      rw [Nat.succ_mul] at this
      omega
    · have := Nat.mul_le_mul_right width (Nat.succ_le_of_lt hy)
      rw [Nat.succ_mul] at this
      omega
    · have hr : height / 3 + 1 ≤ height := by omega
      have := Nat.mul_le_mul_right width hr
      rw [Nat.succ_mul] at this
      omega
    · have hr : 2 * (height / 3) + 1 ≤ height := by omega
      have := Nat.mul_le_mul_right width hr
      rw [Nat.succ_mul] at this
      omega
  refine ⟨hbound, ?_, ?_⟩
  · intro image hlen i hi
    rw [hlen]
    exact hbound i hi
  · rw [DisplayTask_DrawGrid3x3_writes, List.length_append, length_flatMap_pair,
      length_flatMap_pair, List.length_range, List.length_range]

/-- C29 on the 320 x 240 preview frame: the largest index assigned is
2 * 80 * 320 + 319 = 51519, below 76800. -/
theorem drawGrid_in_bounds_witness :
    (DisplayTask_DrawGrid3x3_writes 320 240).all (fun i => decide (i < 320 * 240)) = true ∧
    (DisplayTask_DrawGrid3x3_writes 320 240).length = 2 * 240 + 2 * 320 :=
  ⟨List.all_eq_true.mpr (fun i hi =>
      decide_eq_true ((drawGrid_in_bounds 320 240 (by decide) (by decide)).1 i hi)),
   (drawGrid_in_bounds 320 240 (by decide) (by decide)).2.2⟩

end Cam
